import Mathlib

/-!
Verification of the `fhir_x_synthea_csv` mapping library.

This file shallowly embeds the parts of the repository that the checked
claims are about:

* `src/fhir_x_synthea_csv/common/transformers.py`
* `src/fhir_x_synthea_csv/common/reverse_transformers.py`
* `src/fhir_x_synthea_csv/common/lexicons.py` and `reverse_lexicons.py`
* `src/fhir_x_synthea_csv/to_fhir/observation.py` and `patient.py`
* `src/fhir_x_synthea_csv/to_synthea_csv/observation.py` and `patient.py`

Modelling conventions:

* JSON-like Python values (the FHIR resource trees) are the inductive
  `JVal`; Python `None` is `JVal.null`, dicts are insertion-ordered
  association lists.
* CSV rows (`Dict[str, str]`) are association lists `List (String × String)`;
  the Synthea CSV reader only produces string cells.
* Python `float` values are modelled as exact decimal numbers
  (`PyNum`: `mant / 10 ^ scale`, kept normalized so that `scale = 0` or
  `10 ∤ mant`).  This agrees with CPython on every value whose shortest
  `repr` is its decimal literal (all values appearing in the claims);
  binary rounding of floats, `inf`/`nan` literals and underscore digit
  separators accepted by `float()` are outside the model.
* Functions that can raise in Python return `Except PyErr _`; functions
  that catch all their exceptions (or cannot raise) stay total.
* Machine integers do not occur: Python integers are unbounded, so `Int`
  and `Nat` are exact models.
-/

/-- Decimal model of a Python `float`: the value `mant / 10 ^ scale`. -/
structure PyNum where
  mant : Int
  scale : Nat
deriving DecidableEq, Repr

/-- A Python value as it occurs in the FHIR resource trees handled by the
library: `None`, booleans, numbers, strings, lists and (string-keyed,
insertion-ordered) dicts. -/
inductive JVal where
  | null
  | bool (b : Bool)
  | num (n : PyNum)
  | str (s : String)
  | arr (xs : List JVal)
  | obj (fields : List (String × JVal))

mutual

def JVal.decEq : (a b : JVal) → Decidable (a = b)
  | .null, .null => isTrue rfl
  | .bool a, .bool b =>
    match decEq a b with
    | isTrue h => isTrue (by rw [h])
    | isFalse h => isFalse (fun hh => h (by injection hh))
  | .num a, .num b =>
    match decEq a b with
    | isTrue h => isTrue (by rw [h])
    | isFalse h => isFalse (fun hh => h (by injection hh))
  | .str a, .str b =>
    match decEq a b with
    | isTrue h => isTrue (by rw [h])
    | isFalse h => isFalse (fun hh => h (by injection hh))
  | .arr a, .arr b =>
    match decEqJList a b with
    | isTrue h => isTrue (by rw [h])
    | isFalse h => isFalse (fun hh => h (by injection hh))
  | .obj a, .obj b =>
    match decEqJFields a b with
    | isTrue h => isTrue (by rw [h])
    | isFalse h => isFalse (fun hh => h (by injection hh))
  | .null, .bool _ | .null, .num _ | .null, .str _ | .null, .arr _ | .null, .obj _
  | .bool _, .null | .bool _, .num _ | .bool _, .str _ | .bool _, .arr _ | .bool _, .obj _
  | .num _, .null | .num _, .bool _ | .num _, .str _ | .num _, .arr _ | .num _, .obj _
  | .str _, .null | .str _, .bool _ | .str _, .num _ | .str _, .arr _ | .str _, .obj _
  | .arr _, .null | .arr _, .bool _ | .arr _, .num _ | .arr _, .str _ | .arr _, .obj _
  | .obj _, .null | .obj _, .bool _ | .obj _, .num _ | .obj _, .str _ | .obj _, .arr _ =>
    isFalse (by intro h; exact JVal.noConfusion h)

def decEqJList : (a b : List JVal) → Decidable (a = b)
  | [], [] => isTrue rfl
  | [], _ :: _ => isFalse (by simp)
  | _ :: _, [] => isFalse (by simp)
  | x :: xs, y :: ys =>
    match JVal.decEq x y, decEqJList xs ys with
    | isTrue h1, isTrue h2 => isTrue (by rw [h1, h2])
    | isFalse h1, _ => isFalse (by simp [h1])
    | _, isFalse h2 => isFalse (by simp [h2])

def decEqJFields : (a b : List (String × JVal)) → Decidable (a = b)
  | [], [] => isTrue rfl
  | [], _ :: _ => isFalse (by simp)
  | _ :: _, [] => isFalse (by simp)
  | (k1, v1) :: xs, (k2, v2) :: ys =>
    match decEq k1 k2, JVal.decEq v1 v2, decEqJFields xs ys with
    | isTrue h1, isTrue h2, isTrue h3 => isTrue (by rw [h1, h2, h3])
    | isFalse h1, _, _ => isFalse (by simp [h1])
    | _, isFalse h2, _ => isFalse (by simp [h2])
    | _, _, isFalse h3 => isFalse (by simp [h3])

end

instance : DecidableEq JVal := JVal.decEq

/-- The Python exceptions that can escape the embedded functions. -/
inductive PyErr where
  | valueError (msg : String)
  | typeError (msg : String)
  | attributeError (msg : String)
  | keyError (msg : String)
  | indexError (msg : String)
deriving DecidableEq, Repr

/-! ### Generic Python semantics helpers -/

/-- Python truthiness of a value (`bool(x)`): `None`, `False`, `0`, `""`,
`[]` and `{}` are falsy, everything else truthy. -/
def pyTruthy : JVal → Bool
  | .null => false
  | .bool b => b
  | .num n => n.mant != 0
  | .str s => s ≠ ""
  | .arr xs => xs ≠ []
  | .obj fields => fields ≠ []

/-- `d[k]` lookup on an association-list dict (first binding wins, as a
Python dict holds each key once). -/
def jLookup (fields : List (String × JVal)) (k : String) : Option JVal :=
  List.lookup k fields

/-- Python `d.get(k)`: `None` when the key is missing. -/
def pyGet (fields : List (String × JVal)) (k : String) : JVal :=
  (jLookup fields k).getD .null

/-- Python `d.get(k, default)`. -/
def pyGetD (fields : List (String × JVal)) (k : String) (dflt : JVal) : JVal :=
  (jLookup fields k).getD dflt

/-- Python `k in d` for a dict. -/
def pyHasKey (fields : List (String × JVal)) (k : String) : Bool :=
  (jLookup fields k).isSome

/-- Python `x.get(k)` on an arbitrary object: `AttributeError` unless the
object is a dict. -/
def pyGetAttr (x : JVal) (k : String) : Except PyErr JVal :=
  match x with
  | .obj fields => .ok (pyGet fields k)
  | _ => .error (.attributeError "object has no attribute get")

/-- Python `x.get(k, default)` on an arbitrary object. -/
def pyGetAttrD (x : JVal) (k : String) (dflt : JVal) : Except PyErr JVal :=
  match x with
  | .obj fields => .ok (pyGetD fields k dflt)
  | _ => .error (.attributeError "object has no attribute get")

/-- Python `a or b` (returns `a` when truthy, else `b`). -/
def pyOr (a b : JVal) : JVal :=
  if pyTruthy a then a else b

/-- Python `dict.update` for the association-list model: existing keys are
overwritten in place, new keys are appended in order. -/
def pyDictUpdate (d : List (String × JVal)) (upd : List (String × JVal)) :
    List (String × JVal) :=
  match upd with
  | [] => d
  | (k, v) :: rest =>
    let d' := if (List.lookup k d).isSome
      then d.map (fun kv => if kv.1 = k then (k, v) else kv)
      else d ++ [(k, v)]
    pyDictUpdate d' rest

/-! ### Decimal digits -/

/-- The decimal digit characters, for rendering. -/
def dChar (n : Nat) : Char :=
  ['0', '1', '2', '3', '4', '5', '6', '7', '8', '9'].getD (n % 10) '0'

/-- ASCII decimal digit test (what `str.isdigit` and the `strptime`
digit classes accept on the inputs in scope). -/
def isDig (c : Char) : Bool :=
  decide (48 ≤ c.toNat) && decide (c.toNat ≤ 57)

/-- Numeric value of a digit character. -/
def digVal (c : Char) : Nat := c.toNat - 48

/-- Value of a list of digit characters read left to right. -/
def natOfDigits (ds : List Char) : Nat :=
  ds.foldl (fun a c => a * 10 + digVal c) 0

/-- Digit-rendering worker, structurally recursive on a fuel bound so that
it reduces inside the kernel (`fuel = n + 1` always suffices since the
argument shrinks by a factor of ten each step). -/
def natDigitsAux : Nat → Nat → List Char
  | 0, _ => []
  | fuel + 1, n =>
    if n < 10 then [dChar n]
    else natDigitsAux fuel (n / 10) ++ [dChar (n % 10)]

/-- Decimal digit list of a natural number (no leading zeros, `0 ↦ "0"`). -/
def natDigits (n : Nat) : List Char := natDigitsAux (n + 1) n

/-- Python `str` of an unbounded integer. -/
def intStr (i : Int) : String :=
  if i < 0 then String.mk ('-' :: natDigits i.natAbs) else String.mk (natDigits i.natAbs)

/-- Zero-padded two-digit rendering (`strftime` `%m`/`%d`/`%H`/`%M`/`%S`). -/
def pad2 (n : Nat) : List Char := [dChar (n / 10), dChar n]

/-- Zero-padded four-digit rendering (`strftime` `%Y` for four-digit years). -/
def pad4 (n : Nat) : List Char :=
  [dChar (n / 1000), dChar (n / 100), dChar (n / 10), dChar n]

/-! ### The decimal float model -/

/-- Normalize a decimal number by stripping factors of ten shared between
mantissa and scale, so equal float values get equal representations. -/
def normNum (mant : Int) (scale : Nat) : PyNum :=
  match scale with
  | 0 => ⟨mant, 0⟩
  | s + 1 => if mant % 10 = 0 then normNum (mant / 10) s else ⟨mant, s + 1⟩

/-- A normalized decimal is a whole number iff its scale is zero. -/
def PyNum.isWholeNormalized (n : PyNum) : Bool := n.scale == 0

/-- Mathematical wholeness of a (not necessarily normalized) decimal:
Python `value == int(value)`. -/
def PyNum.isWhole (n : PyNum) : Bool := n.mant % ((10 : Int) ^ n.scale) == 0

/-- Python `int(x)` truncation toward zero of a float. -/
def PyNum.trunc (n : PyNum) : Int := Int.tdiv n.mant ((10 : Int) ^ n.scale)

/-- Python `str` of a float whose shortest `repr` is its decimal literal:
`str(175.5) = "175.5"`, `str(-0.05) = "-0.05"`.  (CPython switches to
scientific notation below `1e-4` and at/above `1e16`; no claim input does.) -/
def PyNum.render (n : PyNum) : String :=
  if n.scale = 0 then intStr n.mant
  else
    let digits := natDigits n.mant.natAbs
    let digits := List.replicate (n.scale + 1 - digits.length) '0' ++ digits
    let intPart := digits.take (digits.length - n.scale)
    let fracPart := digits.drop (digits.length - n.scale)
    String.mk ((if n.mant < 0 then ['-'] else []) ++ intPart ++ '.' :: fracPart)

/-- Python `str(x)` of an arbitrary value (`repr` for nested containers).
Container and string reprs are approximated structurally; every claim only
evaluates them on atoms. -/
def pyStrOf (x : JVal) : String :=
  match x with
  | .null => "None"
  | .bool b => if b then "True" else "False"
  | .num n => n.render
  | .str s => s
  | .arr _ => "[...]"
  | .obj _ => "{...}"

/-! ### Python numeric literal parsing -/

/-- ASCII whitespace stripped by `str.strip()` / numeric constructors. -/
def pyWs (c : Char) : Bool :=
  c = ' ' || c = '\t' || c = '\n' || c = '\r' || c = '\x0b' || c = '\x0c'

/-- Strip whitespace from both ends. -/
def stripWs (cs : List Char) : List Char :=
  ((cs.dropWhile pyWs).reverse.dropWhile pyWs).reverse

/-- Consume an optional sign; returns whether it was `-`. -/
def parseSign : List Char → Bool × List Char
  | '-' :: rest => (true, rest)
  | '+' :: rest => (false, rest)
  | cs => (false, cs)

/-- Build the decimal value `mant / 10 ^ scale` for a possibly negative
scale (from an exponent part), normalized. -/
def mkScaled (mant : Int) (scale : Int) : PyNum :=
  if scale ≤ 0 then ⟨mant * (10 : Int) ^ (-scale).toNat, 0⟩
  else normNum mant scale.toNat

/-- Python `float(s)` on decimal literals: optional surrounding whitespace,
optional sign, digits with an optional fractional part (at least one digit
overall, `"1."` and `".5"` both legal), optional `e`/`E` exponent.
`inf`/`nan` literals and underscore separators are outside the model. -/
def pyFloatOfString (s : String) : Option PyNum :=
  let cs := stripWs s.data
  let (neg, cs) := parseSign cs
  let ds1 := cs.takeWhile isDig
  let cs := cs.dropWhile isDig
  let (ds2, cs) :=
    match cs with
    | '.' :: rest => (rest.takeWhile isDig, rest.dropWhile isDig)
    | _ => ([], cs)
  if ds1 = [] ∧ ds2 = [] then none
  else
    let mant : Int := (natOfDigits (ds1 ++ ds2) : Int)
    let mant := if neg then -mant else mant
    match cs with
    | [] => some (mkScaled mant ds2.length)
    | e :: rest =>
      if e = 'e' ∨ e = 'E' then
        let (eneg, rest) := parseSign rest
        let eds := rest.takeWhile isDig
        let rest := rest.dropWhile isDig
        if eds = [] ∨ rest ≠ [] then none
        else
          let ex : Int := (natOfDigits eds : Int)
          let ex := if eneg then -ex else ex
          some (mkScaled mant ((ds2.length : Int) - ex))
      else none

/-- Python `int(s)` on string literals: optional surrounding whitespace,
optional sign, decimal digits. -/
def pyIntOfString (s : String) : Option Int :=
  let cs := stripWs s.data
  let (neg, cs) := parseSign cs
  let ds := cs.takeWhile isDig
  let rest := cs.dropWhile isDig
  if ds = [] ∨ rest ≠ [] then none
  else some (if neg then -(natOfDigits ds : Int) else (natOfDigits ds : Int))

/-- Python `int(x)` on an arbitrary value: truncates floats toward zero,
parses strings, rejects `None` and containers. -/
def pyInt (x : JVal) : Except PyErr Int :=
  match x with
  | .num n => .ok n.trunc
  | .bool b => .ok (if b then 1 else 0)
  | .str s =>
    match pyIntOfString s with
    | some i => .ok i
    | none => .error (.valueError "invalid literal for int() with base 10")
  | _ => .error (.typeError "int() argument must be a string or a real number")

/-- Python `value == i` between a value and the `int` obtained from it
(only called after `pyInt` succeeded, so `value` is a number, bool or
numeric string; cross-type equality with a string is `False`). -/
def pyEqInt (v : JVal) (i : Int) : Bool :=
  match v with
  | .num n => n.mant == i * (10 : Int) ^ n.scale
  | .bool b => (if b then (1 : Int) else 0) == i
  | _ => false

/-! ### Python string helpers -/

/-- Python `str.lower()` (ASCII case mapping; the library only lowercases
ASCII keywords). -/
def pyLower (s : String) : String := String.mk (s.data.map Char.toLower)

/-- Python `str.split(sep)` for a one-character separator. -/
def splitChar (sep : Char) : List Char → List (List Char)
  | [] => [[]]
  | c :: rest =>
    let r := splitChar sep rest
    if c = sep then [] :: r
    else
      match r with
      | h :: t => (c :: h) :: t
      | [] => [[c]]

/-- Python `needle in container` (`TypeError` on non-iterable containers;
string containment is substring search). -/
def pyInOp (needle container : JVal) : Except PyErr Bool :=
  match container with
  | .str s =>
    match needle with
    | .str n => .ok (List.any s.data.tails (fun t => n.data.isPrefixOf t))
    | _ => .error (.typeError "in <string> requires string as left operand")
  | .arr xs => .ok (xs.any (fun x => x == needle))
  | .obj fields =>
    match needle with
    | .str k => .ok (pyHasKey fields k)
    | .null | .num _ | .bool _ => .ok false
    | _ => .error (.typeError "unhashable type")
  | _ => .error (.typeError "argument of type is not iterable")

/-- Python `key in d` / `d.get(key)` for a dict with string keys when the
key is an arbitrary value: non-string hashables miss, unhashables raise. -/
def pyStrKeyHashable (k : JVal) : Except PyErr (Option String) :=
  match k with
  | .str s => .ok (some s)
  | .null | .num _ | .bool _ => .ok none
  | .arr _ | .obj _ => .error (.typeError "unhashable type")

/-! ### `common/transformers.py` — the datetime and reference codec -/

/-- A Python naive `datetime` as constructed by the library. -/
structure Datetime where
  year : Nat
  month : Nat
  day : Nat
  hour : Nat
  minute : Nat
  second : Nat
deriving DecidableEq, Repr

/-- Proleptic Gregorian leap-year rule used by `datetime`. -/
def isLeap (y : Nat) : Bool :=
  y % 4 == 0 && (y % 100 != 0 || y % 400 == 0)

/-- Days in a month of the proleptic Gregorian calendar. -/
def daysInMonth (y mo : Nat) : Nat :=
  if mo = 2 then (if isLeap y then 29 else 28)
  else if mo = 4 ∨ mo = 6 ∨ mo = 9 ∨ mo = 11 then 30
  else 31

/-- The `datetime(...)` constructor's validation (`ValueError` outside the
ranges, modelled as `none`). -/
def mkDatetime (y mo d h mi s : Nat) : Option Datetime :=
  if 1 ≤ y ∧ y ≤ 9999 ∧ 1 ≤ mo ∧ mo ≤ 12 ∧ 1 ≤ d ∧ d ≤ daysInMonth y mo
      ∧ h ≤ 23 ∧ mi ≤ 59 ∧ s ≤ 59 then
    some ⟨y, mo, d, h, mi, s⟩
  else none

/-- `strptime` `%Y`: exactly four digits. -/
def parse4 : List Char → Option (Nat × List Char)
  | a :: b :: c :: d :: rest =>
    if isDig a && isDig b && isDig c && isDig d then
      some (((digVal a * 10 + digVal b) * 10 + digVal c) * 10 + digVal d, rest)
    else none
  | _ => none

/-- `strptime` two-digit numeric fields (`%m`, `%d`, `%H`, `%M`, `%S`):
greedily one or two digits.  The regex-level range classes are folded into
the `datetime` constructor check in `mkDatetime`; on every input both
stagings yield the same overall `Option` result. -/
def parse12 : List Char → Option (Nat × List Char)
  | [] => none
  | [a] => if isDig a then some (digVal a, []) else none
  | a :: b :: rest =>
    if isDig a then
      if isDig b then some (digVal a * 10 + digVal b, rest)
      else some (digVal a, b :: rest)
    else none

/-- Exactly two digits (`fromisoformat` fields). -/
def parse2 : List Char → Option (Nat × List Char)
  | a :: b :: rest =>
    if isDig a && isDig b then some (digVal a * 10 + digVal b, rest) else none
  | _ => none

/-- A literal separator character. -/
def expectC (c : Char) : List Char → Option (List Char)
  | x :: rest => if x = c then some rest else none
  | [] => none

/-- Literal whitespace in a `strptime` format matches one or more
whitespace characters. -/
def expectWs : List Char → Option (List Char)
  | x :: rest => if pyWs x then some (rest.dropWhile pyWs) else none
  | [] => none

/-- `datetime.strptime(s, "%Y-%m-%d %H:%M:%S")`. -/
def strptimeDatetime (cs : List Char) : Option Datetime := do
  let (y, cs) ← parse4 cs
  let cs ← expectC '-' cs
  let (mo, cs) ← parse12 cs
  let cs ← expectC '-' cs
  let (d, cs) ← parse12 cs
  let cs ← expectWs cs
  let (h, cs) ← parse12 cs
  let cs ← expectC ':' cs
  let (mi, cs) ← parse12 cs
  let cs ← expectC ':' cs
  let (s, cs) ← parse12 cs
  if cs = [] then mkDatetime y mo d h mi s else none

/-- `datetime.strptime(s, "%Y-%m-%d")`. -/
def strptimeDate (cs : List Char) : Option Datetime := do
  let (y, cs) ← parse4 cs
  let cs ← expectC '-' cs
  let (mo, cs) ← parse12 cs
  let cs ← expectC '-' cs
  let (d, cs) ← parse12 cs
  if cs = [] then mkDatetime y mo d 0 0 0 else none

/-- Models `datetime.fromisoformat` on the canonical forms the library
feeds it after stripping fraction/offset/`Z` parts:
`YYYY-MM-DD` optionally followed by `THH:MM[:SS]`. -/
def fromisoformat (cs : List Char) : Option Datetime := do
  let (y, cs) ← parse4 cs
  let cs ← expectC '-' cs
  let (mo, cs) ← parse2 cs
  let cs ← expectC '-' cs
  let (d, cs) ← parse2 cs
  match cs with
  | [] => mkDatetime y mo d 0 0 0
  | 'T' :: cs => do
    let (h, cs) ← parse2 cs
    let cs ← expectC ':' cs
    let (mi, cs) ← parse2 cs
    match cs with
    | [] => mkDatetime y mo d h mi 0
    | ':' :: cs => do
      let (s, cs) ← parse2 cs
      if cs = [] then mkDatetime y mo d h mi s else none
    | _ => none
  | _ => none

/-- `parse_synthea_datetime` (transformers.py lines 10–31).  The dead
`dt_clean` assignments on lines 19–20 are always overwritten by line 23
since `'T' in dt_str` guards the branch, so they are not modelled. -/
def parse_synthea_datetime (dtStr : String) : Option Datetime :=
  if dtStr = "" then none
  else
    let cs := dtStr.data
    if 'T' ∈ cs then
      let datePart := cs.takeWhile (· ≠ 'T')
      let afterT := (cs.dropWhile (· ≠ 'T')).tail.takeWhile (· ≠ 'T')
      let timePart := ((afterT.filter (· ≠ 'Z')).takeWhile (· ≠ '+')).takeWhile (· ≠ '.')
      fromisoformat (datePart ++ 'T' :: timePart)
    else if ' ' ∈ cs then strptimeDatetime cs
    else strptimeDate cs

/-- `dt.strftime("%Y-%m-%dT%H:%M:%S+00:00")` for the four-digit years the
library handles. -/
def strftimeFhirDatetime (dt : Datetime) : String :=
  String.mk (pad4 dt.year ++ '-' :: pad2 dt.month ++ '-' :: pad2 dt.day
    ++ 'T' :: pad2 dt.hour ++ ':' :: pad2 dt.minute ++ ':' :: pad2 dt.second
    ++ ['+', '0', '0', ':', '0', '0'])

/-- `format_fhir_datetime` (transformers.py lines 34–38). -/
def format_fhir_datetime : Option Datetime → Option String
  | none => none
  | some dt => some (strftimeFhirDatetime dt)

/-- `dt.strftime("%Y-%m-%d")`. -/
def strftimeFhirDate (dt : Datetime) : String :=
  String.mk (pad4 dt.year ++ '-' :: pad2 dt.month ++ '-' :: pad2 dt.day)

/-- `format_fhir_date` (transformers.py lines 41–45). -/
def format_fhir_date : Option Datetime → Option String
  | none => none
  | some dt => some (strftimeFhirDate dt)

/-- `to_fhir_datetime` (transformers.py lines 87–92); the argument is the
(possibly missing) CSV cell. -/
def to_fhir_datetime (value : Option String) : Option String :=
  match value with
  | none => none
  | some v => if v = "" then none else format_fhir_datetime (parse_synthea_datetime v)

/-- `to_fhir_date` (transformers.py lines 94–99). -/
def to_fhir_date (value : Option String) : Option String :=
  match value with
  | none => none
  | some v => if v = "" then none else format_fhir_date (parse_synthea_datetime v)

/-- `create_reference` (transformers.py lines 48–50): builds the reference
object unconditionally. -/
def create_reference (resourceType resourceId : String) : List (String × JVal) :=
  [("reference", .str (resourceType ++ "/" ++ resourceId))]

/-- `create_identifier` (transformers.py lines 53–75). -/
def create_identifier (system value : String) (use typeCode : Option String) : JVal :=
  let identifier := [("system", JVal.str system), ("value", JVal.str value)]
  let identifier := identifier ++
    (match use with | some u => if u ≠ "" then [("use", JVal.str u)] else [] | none => [])
  let identifier := identifier ++
    (match typeCode with
     | some t =>
       if t ≠ "" then
         [("type", JVal.obj [("coding", JVal.arr [JVal.obj
           [("system", JVal.str "http://terminology.hl7.org/CodeSystem/v2-0203"),
            ("code", JVal.str t)]])])]
       else []
     | none => [])
  JVal.obj identifier

/-! ### More dynamic-Python helpers used by the reverse mappers -/

/-- Python `for x in v`: lists yield elements, strings their characters,
dicts their keys; other values raise `TypeError`. -/
def pyIterate (v : JVal) : Except PyErr (List JVal) :=
  match v with
  | .arr xs => .ok xs
  | .str s => .ok (s.data.map (fun c => .str (String.mk [c])))
  | .obj fields => .ok (fields.map (fun kv => .str kv.1))
  | _ => .error (.typeError "object is not iterable")

/-- Python `len(v)` (`TypeError` on numbers, booleans and `None`). -/
def pyLen (v : JVal) : Except PyErr Nat :=
  match v with
  | .arr xs => .ok xs.length
  | .str s => .ok s.length
  | .obj fields => .ok fields.length
  | _ => .error (.typeError "object has no len")

/-- Python `v[0]`. -/
def pyIndex0 (v : JVal) : Except PyErr JVal :=
  match v with
  | .arr (x :: _) => .ok x
  | .arr [] => .error (.indexError "list index out of range")
  | .str s =>
    match s.data with
    | c :: _ => .ok (.str (String.mk [c]))
    | [] => .error (.indexError "string index out of range")
  | .obj _ => .error (.keyError "0")
  | _ => .error (.typeError "object is not subscriptable")

/-! ### `common/reverse_transformers.py` -/

/-- `re.sub(r"[+-]\d{2}:\d{2}$|Z$", "", s)`: strip one trailing timezone
suffix. -/
def stripTzSuffix (cs : List Char) : List Char :=
  if cs.getLast? = some 'Z' then cs.dropLast
  else
    match cs.reverse with
    | m2 :: m1 :: ':' :: h2 :: h1 :: sgn :: rest =>
      if isDig m2 && isDig m1 && isDig h2 && isDig h1 && (sgn = '+' || sgn = '-') then
        rest.reverse
      else cs
    | _ => cs

/-- `dt.strftime("%Y-%m-%d %H:%M:%S")`. -/
def strftimeSyntheaDatetime (dt : Datetime) : String :=
  String.mk (pad4 dt.year ++ '-' :: pad2 dt.month ++ '-' :: pad2 dt.day
    ++ ' ' :: pad2 dt.hour ++ ':' :: pad2 dt.minute ++ ':' :: pad2 dt.second)

/-- `dt.strftime("%Y-%m-%d")` (same rendering as `strftimeFhirDate`,
named for the reverse direction's use). -/
def strftimeSyntheaDate (dt : Datetime) : String := strftimeFhirDate dt

/-- `parse_fhir_datetime` (reverse_transformers.py lines 10–42): every
exception is caught, so the embedding is total; a non-string truthy input
makes `re.sub` raise `TypeError`, which is caught (`none`). -/
def parse_fhir_datetime (fhirDt : JVal) : Option String :=
  if ¬pyTruthy fhirDt then none
  else
    match fhirDt with
    | .str s =>
      let clean := stripTzSuffix s.data
      if 'T' ∈ clean then (fromisoformat clean).map strftimeSyntheaDatetime
      else (fromisoformat clean).map strftimeSyntheaDate
    | _ => none

/-- `parse_fhir_date` (reverse_transformers.py lines 45–63). -/
def parse_fhir_date (fhirDate : JVal) : Option String :=
  if ¬pyTruthy fhirDate then none
  else
    match fhirDate with
    | .str s => (fromisoformat s.data).map strftimeSyntheaDate
    | _ => none

/-- Python `s.split(sep)[-1]` for a one-character separator. -/
def lastSplitSeg (sep : Char) (s : String) : String :=
  String.mk ((splitChar sep s.data).getLastD [])

/-- `extract_reference_id` (reverse_transformers.py lines 66–87).  A
truthy non-string `reference` field makes `"/" in ref_str` raise
`TypeError`; a truthy list containing `"/"` would make `.split` raise
`AttributeError`. -/
def extract_reference_id (reference : JVal) : Except PyErr JVal :=
  if ¬pyTruthy reference then .ok .null
  else
    match reference with
    | .obj r =>
      let refStr := pyGet r "reference"
      if ¬pyTruthy refStr then .ok .null
      else do
        let hasSlash ← pyInOp (.str "/") refStr
        if hasSlash then
          match refStr with
          | .str s => .ok (.str (lastSplitSeg '/' s))
          | _ => .error (.attributeError "object has no attribute split")
        else .ok refStr
    | _ => .ok .null

/-- Whether some element of a `coding` list is a dict whose `code` equals
the searched type code (the loop of `extract_identifier_by_type`). -/
def codingHasCode (typeCode : String) (xs : List JVal) : Bool :=
  xs.any (fun code =>
    match code with
    | .obj c => pyGet c "code" == JVal.str typeCode
    | _ => false)

/-- The identifier loop of `extract_identifier_by_type`. -/
def extractIdentifierGo (typeCode : String) : List JVal → JVal
  | [] => .null
  | identifier :: rest =>
    match identifier with
    | .obj idf =>
      (match pyGet idf "type" with
       | .obj t =>
         if (JVal.obj t) == .obj [] then extractIdentifierGo typeCode rest
         else
           (match pyGet t "coding" with
            | .arr xs =>
              if xs = [] then extractIdentifierGo typeCode rest
              else if codingHasCode typeCode xs then pyGet idf "value"
              else extractIdentifierGo typeCode rest
            | _ => extractIdentifierGo typeCode rest)
       | _ => extractIdentifierGo typeCode rest)
    | _ => extractIdentifierGo typeCode rest

/-- `extract_identifier_by_type` (reverse_transformers.py lines 90–123). -/
def extract_identifier_by_type (identifiers : JVal) (typeCode : String) :
    Except PyErr JVal :=
  if ¬pyTruthy identifiers then .ok .null
  else do
    let items ← pyIterate identifiers
    .ok (extractIdentifierGo typeCode items)

/-- `extract_coding_by_system` (reverse_transformers.py lines 126–151). -/
def extract_coding_by_system (codeableConcept : JVal) (system : String) : JVal :=
  if ¬pyTruthy codeableConcept then .null
  else
    match codeableConcept with
    | .obj cc =>
      (match pyGet cc "coding" with
       | .arr xs =>
         if xs = [] then .null
         else
           (xs.find? (fun coding =>
             match coding with
             | .obj c => pyGet c "system" == JVal.str system
             | _ => false)).getD .null
       | _ => .null)
    | _ => .null

/-- `extract_extension_by_url` (reverse_transformers.py lines 154–175):
linear scan for the first dict entry whose `url` equals the searched URL. -/
def extract_extension_by_url (extensions : JVal) (url : String) : JVal :=
  match extensions with
  | .arr xs =>
    if xs = [] then .null
    else
      (xs.find? (fun ext =>
        match ext with
        | .obj e => pyGet e "url" == JVal.str url
        | _ => false)).getD .null
  | _ => .null

/-- The OMB race code table inside `extract_us_core_race`. -/
def raceCodeMap : List (String × String) :=
  [("2106-3", "white"), ("2054-5", "black"), ("2028-9", "asian"),
   ("1002-5", "native"), ("2076-8", "hawaiian"), ("2131-1", "other")]

/-- The OMB ethnicity code table inside `extract_us_core_ethnicity`. -/
def ethnicityCodeMap : List (String × String) :=
  [("2135-2", "hispanic"), ("2186-5", "nonhispanic")]

/-- The `ombCategory` scan shared by `extract_us_core_race` and
`extract_us_core_ethnicity`: the first `ombCategory` sub-extension with a
dict `valueCoding` decides the result (a table miss still returns). -/
def usCoreOmbScan (codeMap : List (String × String)) : List JVal → Except PyErr JVal
  | [] => .ok .null
  | ext :: rest =>
    match ext with
    | .obj e =>
      if pyGet e "url" == JVal.str "ombCategory" then
        match pyGet e "valueCoding" with
        | .obj c => do
          let k ← pyStrKeyHashable (pyGet c "code")
          .ok (match k with
            | some s => (match List.lookup s codeMap with
                         | some v => .str v
                         | none => .null)
            | none => .null)
        | _ => usCoreOmbScan codeMap rest
      else usCoreOmbScan codeMap rest
    | _ => usCoreOmbScan codeMap rest

/-- `extract_us_core_race` (reverse_transformers.py lines 178–214). -/
def extract_us_core_race (extensions : JVal) : Except PyErr JVal :=
  let raceExt := extract_extension_by_url extensions
    "http://hl7.org/fhir/us/core/StructureDefinition/us-core-race"
  if ¬pyTruthy raceExt then .ok .null
  else do
    let raceExtensions ← pyGetAttrD raceExt "extension" (.arr [])
    let items ← pyIterate raceExtensions
    usCoreOmbScan raceCodeMap items

/-- `extract_us_core_ethnicity` (reverse_transformers.py lines 217–249). -/
def extract_us_core_ethnicity (extensions : JVal) : Except PyErr JVal :=
  let ethnicityExt := extract_extension_by_url extensions
    "http://hl7.org/fhir/us/core/StructureDefinition/us-core-ethnicity"
  if ¬pyTruthy ethnicityExt then .ok .null
  else do
    let ethnicityExtensions ← pyGetAttrD ethnicityExt "extension" (.arr [])
    let items ← pyIterate ethnicityExtensions
    usCoreOmbScan ethnicityCodeMap items

/-- `extract_birthplace` (reverse_transformers.py lines 252–274). -/
def extract_birthplace (extensions : JVal) : JVal :=
  let birthplaceExt := extract_extension_by_url extensions
    "http://hl7.org/fhir/StructureDefinition/patient-birthPlace"
  if ¬pyTruthy birthplaceExt then .null
  else
    match birthplaceExt with
    | .obj e =>
      (match pyGet e "valueAddress" with
       | .obj va => pyGet va "text"
       | _ => .null)
    | _ => .null

/-- The latitude/longitude loop of `extract_geolocation`: later matches
overwrite earlier ones. -/
def geoScan : List JVal → JVal × JVal → JVal × JVal
  | [], acc => acc
  | ext :: rest, (lat, lon) =>
    match ext with
    | .obj e =>
      if pyGet e "url" == JVal.str "latitude" then
        geoScan rest (.str (pyStrOf (pyGet e "valueDecimal")), lon)
      else if pyGet e "url" == JVal.str "longitude" then
        geoScan rest (lat, .str (pyStrOf (pyGet e "valueDecimal")))
      else geoScan rest (lat, lon)
    | _ => geoScan rest (lat, lon)

/-- `extract_geolocation` (reverse_transformers.py lines 277–309). -/
def extract_geolocation (address : JVal) : Except PyErr (JVal × JVal) :=
  match address with
  | .obj addr =>
    let geoExt := extract_extension_by_url (pyGet addr "extension")
      "http://hl7.org/fhir/StructureDefinition/geolocation"
    if ¬pyTruthy geoExt then .ok (.null, .null)
    else do
      let geoExtensions ← pyGetAttrD geoExt "extension" (.arr [])
      let items ← pyIterate geoExtensions
      .ok (geoScan items (.null, .null))
  | _ => .ok (.null, .null)

/-- `safe_get_first` (reverse_transformers.py lines 312–324). -/
def safe_get_first (items : JVal) : JVal :=
  match items with
  | .arr (x :: _) => x
  | _ => .null

/-! ### `common/lexicons.py` -/

/-- `MappingDict.forward_get` / `.get`: `self.mappings.get(key, self.default)`.
The external `chidian.Lexicon` used for the gender tables has the same
dict-lookup-with-default behaviour, which this in-repo wrapper was written
to mirror. -/
def forwardGet (mappings : List (String × JVal)) (dflt : JVal) (key : Option String) : JVal :=
  match key with
  | some k => (List.lookup k mappings).getD dflt
  | none => dflt

/-- `gender_lexicon` (lexicons.py): Synthea code to FHIR gender, default
`"unknown"`. -/
def genderLexiconGet (key : Option String) : String :=
  match key with
  | some k =>
    (List.lookup k [("M", "male"), ("F", "female"), ("O", "other"), ("U", "unknown")]).getD
      "unknown"
  | none => "unknown"

/-- One marital-status CodeableConcept of `marital_status_mapping`. -/
def maritalConcept (code display : String) : JVal :=
  .obj [("coding", .arr [.obj
          [("system", .str "http://terminology.hl7.org/CodeSystem/v3-MaritalStatus"),
           ("code", .str code), ("display", .str display)]]),
        ("text", .str display)]

/-- `marital_status_mapping` (lexicons.py). -/
def marital_status_mapping : List (String × JVal) :=
  [("S", maritalConcept "S" "Never Married"),
   ("M", maritalConcept "M" "Married"),
   ("D", maritalConcept "D" "Divorced"),
   ("W", maritalConcept "W" "Widowed")]

/-- One US-core race/ethnicity extension value of the lexicon tables. -/
def usCoreExtension (url code display : String) : JVal :=
  .obj [("url", .str url),
        ("extension", .arr
          [.obj [("url", .str "ombCategory"),
                 ("valueCoding", .obj
                   [("system", .str "urn:oid:2.16.840.1.113883.6.238"),
                    ("code", .str code), ("display", .str display)])],
           .obj [("url", .str "text"), ("valueString", .str display)]])]

/-- A race/ethnicity extension whose `ombCategory` display and `text`
value differ (the `"other"` entry of `race_mapping`). -/
def usCoreExtensionMixed (url code display textValue : String) : JVal :=
  .obj [("url", .str url),
        ("extension", .arr
          [.obj [("url", .str "ombCategory"),
                 ("valueCoding", .obj
                   [("system", .str "urn:oid:2.16.840.1.113883.6.238"),
                    ("code", .str code), ("display", .str display)])],
           .obj [("url", .str "text"), ("valueString", .str textValue)]])]

/-- `race_mapping` (lexicons.py); the `"other"` entry's `text` is
`"Other"`, unlike its coding display `"Other Race"`. -/
def race_mapping : List (String × JVal) :=
  let u := "http://hl7.org/fhir/us/core/StructureDefinition/us-core-race"
  [("white", usCoreExtension u "2106-3" "White"),
   ("black", usCoreExtension u "2054-5" "Black or African American"),
   ("asian", usCoreExtension u "2028-9" "Asian"),
   ("native", usCoreExtension u "1002-5" "American Indian or Alaska Native"),
   ("hawaiian", usCoreExtension u "2076-8" "Native Hawaiian or Other Pacific Islander"),
   ("other", usCoreExtensionMixed u "2131-1" "Other Race" "Other")]

/-- `ethnicity_mapping` (lexicons.py). -/
def ethnicity_mapping : List (String × JVal) :=
  let u := "http://hl7.org/fhir/us/core/StructureDefinition/us-core-ethnicity"
  [("hispanic", usCoreExtension u "2135-2" "Hispanic or Latino"),
   ("nonhispanic", usCoreExtension u "2186-5" "Not Hispanic or Latino")]

/-! ### `common/reverse_lexicons.py` -/

/-- `gender_reverse_lexicon.get` (reverse_lexicons.py lines 13–21),
modelled as dict lookup with default `"U"`; an unhashable key raises. -/
def genderReverseLexiconGet (key : JVal) : Except PyErr JVal := do
  let k ← pyStrKeyHashable key
  .ok (match k with
    | some s =>
      .str ((List.lookup s
        [("male", "M"), ("female", "F"), ("other", "O"), ("unknown", "U")]).getD "U")
    | none => .str "U")

/-- `marital_status_reverse_mapping` (reverse_lexicons.py lines 25–30). -/
def marital_status_reverse_mapping : List (String × String) :=
  [("S", "S"), ("M", "M"), ("D", "D"), ("W", "W")]

/-- `observation_category_reverse_mapping` (reverse_lexicons.py lines 36–44). -/
def observation_category_reverse_mapping : List (String × String) :=
  [("vital-signs", "vital-signs"), ("laboratory", "laboratory"), ("survey", "survey"),
   ("social-history", "social-history"), ("imaging", "imaging"),
   ("procedure", "procedure"), ("exam", "exam")]

/-- The coding loop of `extract_marital_status_from_codeable_concept`:
`code in mapping` can raise on an unhashable code once the system URL
matches. -/
def maritalCodingScan : List JVal → Except PyErr JVal
  | [] => .ok .null
  | codeObj :: rest =>
    match codeObj with
    | .obj c =>
      if pyGet c "system" == JVal.str "http://terminology.hl7.org/CodeSystem/v3-MaritalStatus"
      then do
        let k ← pyStrKeyHashable (pyGet c "code")
        match k with
        | some s =>
          (match List.lookup s marital_status_reverse_mapping with
           | some v => .ok (.str v)
           | none => maritalCodingScan rest)
        | none => maritalCodingScan rest
      else maritalCodingScan rest
    | _ => maritalCodingScan rest

/-- `extract_marital_status_from_codeable_concept` (reverse_lexicons.py
lines 69–99). -/
def extract_marital_status_from_codeable_concept (maritalStatus : JVal) :
    Except PyErr JVal :=
  if ¬pyTruthy maritalStatus then .ok .null
  else
    match maritalStatus with
    | .obj ms =>
      (match pyGet ms "coding" with
       | .arr xs => if xs = [] then .ok .null else maritalCodingScan xs
       | _ => .ok .null)
    | _ => .ok .null

/-- The coding loop of `extract_observation_category_from_codeable_concept`. -/
def categoryCodingScan : List JVal → Except PyErr JVal
  | [] => .ok (.str "exam")
  | codeObj :: rest =>
    match codeObj with
    | .obj c =>
      if pyGet c "system" == JVal.str "http://terminology.hl7.org/CodeSystem/observation-category"
      then do
        let k ← pyStrKeyHashable (pyGet c "code")
        match k with
        | some s =>
          (match List.lookup s observation_category_reverse_mapping with
           | some v => .ok (.str v)
           | none => categoryCodingScan rest)
        | none => categoryCodingScan rest
      else categoryCodingScan rest
    | _ => categoryCodingScan rest

/-- `extract_observation_category_from_codeable_concept` (reverse_lexicons.py
lines 101–136): unlike the marital scan, a miss falls back to `"exam"`. -/
def extract_observation_category_from_codeable_concept (categories : JVal) :
    Except PyErr JVal :=
  if ¬pyTruthy categories then .ok .null
  else
    match categories with
    | .arr (category :: _) =>
      (match category with
       | .obj cat =>
         (match pyGet cat "coding" with
          | .arr xs => if xs = [] then .ok .null else categoryCodingScan xs
          | _ => .ok .null)
       | _ => .ok .null)
    | _ => .ok .null

/-- `determine_observation_type` (reverse_lexicons.py lines 138–164):
purely key-presence driven. -/
def determine_observation_type (fields : List (String × JVal)) : String :=
  if pyHasKey fields "valueQuantity" then "numeric"
  else if pyHasKey fields "valueInteger" then "numeric"
  else if pyHasKey fields "valueDecimal" then "numeric"
  else if pyHasKey fields "valueString" then "text"
  else if pyHasKey fields "valueBoolean" then "text"
  else if pyHasKey fields "valueCodeableConcept" then "text"
  else "text"

/-- `extract_value_and_unit` (reverse_lexicons.py lines 166–231).  The
`value == int(value)` comparisons evaluate `int(value)` first, which
raises `ValueError`/`TypeError` on non-numeric contents — this is the one
uncaught exception source inside the observation reverse transform. -/
def extract_value_and_unit (fields : List (String × JVal)) :
    Except PyErr (JVal × JVal) :=
  if pyHasKey fields "valueQuantity" then
    match pyGet fields "valueQuantity" with
    | .obj q =>
      let value := pyGet q "value"
      let unit := pyOr (pyGet q "unit") (pyGet q "code")
      if value ≠ .null then do
        let iv ← pyInt value
        if pyEqInt value iv then .ok (.str (intStr iv), unit)
        else .ok (.str (pyStrOf value), unit)
      else .ok (.null, unit)
    | _ => .ok (.null, .null)
  else if pyHasKey fields "valueInteger" then
    let value := pyGet fields "valueInteger"
    if value ≠ .null then do
      let iv ← pyInt value
      .ok (.str (intStr iv), .null)
    else .ok (.null, .null)
  else if pyHasKey fields "valueDecimal" then
    let value := pyGet fields "valueDecimal"
    if value ≠ .null then do
      let iv ← pyInt value
      if pyEqInt value iv then .ok (.str (intStr iv), .null)
      else .ok (.str (pyStrOf value), .null)
    else .ok (.null, .null)
  else if pyHasKey fields "valueString" then
    .ok (pyGet fields "valueString", .null)
  else if pyHasKey fields "valueBoolean" then
    .ok (.str (if pyTruthy (pyGet fields "valueBoolean") then "true" else "false"), .null)
  else if pyHasKey fields "valueCodeableConcept" then
    match pyGet fields "valueCodeableConcept" with
    | .obj concept =>
      let text := pyGet concept "text"
      if pyTruthy text then .ok (text, .null)
      else
        (match pyGet concept "coding" with
         | .arr (first :: _) => do
           let d1 ← pyGetAttr first "display"
           let c1 ← pyGetAttr first "code"
           .ok (pyOr d1 c1, .null)
         | _ => .ok (.null, .null))
    | _ => .ok (.null, .null)
  else .ok (.null, .null)

/-! ### `to_fhir/observation.py` -/

/-- A Synthea CSV row: column name to cell string (empty string = absent
value, as produced by the CSV reader). -/
abbrev Row := List (String × String)

/-- `src.get(col)` on a CSV row. -/
def rowGet (src : Row) (col : String) : Option String :=
  List.lookup col src

/-- `src.get(col)` restricted to truthy cells: the pervasive
`if src.get(col):` walrus/guard pattern. -/
def rowGetT (src : Row) (col : String) : Option String :=
  match List.lookup col src with
  | some v => if v ≠ "" then some v else none
  | none => none

/-- Lift an optional string into a Python value (`None` when missing). -/
def optStr : Option String → JVal
  | some s => .str s
  | none => .null

/-- One entry of `observation_category_mapping` (observation.py lines 17–72). -/
def observationCategoryConcept (code display : String) : JVal :=
  .obj [("coding", .arr [.obj
    [("system", .str "http://terminology.hl7.org/CodeSystem/observation-category"),
     ("code", .str code), ("display", .str display)]])]

/-- `observation_category_mapping` (observation.py lines 17–72). -/
def observation_category_mapping : List (String × JVal) :=
  [("vital-signs", observationCategoryConcept "vital-signs" "Vital Signs"),
   ("laboratory", observationCategoryConcept "laboratory" "Laboratory"),
   ("survey", observationCategoryConcept "survey" "Survey"),
   ("social-history", observationCategoryConcept "social-history" "Social History"),
   ("imaging", observationCategoryConcept "imaging" "Imaging"),
   ("procedure", observationCategoryConcept "procedure" "Procedure")]

/-- The `exam` default of `observation_category_lexicon` (lines 74–85). -/
def observation_category_default : JVal := observationCategoryConcept "exam" "Exam"

/-- `_is_numeric` (observation.py lines 88–96) on a CSV cell:
`float(str(value))` succeeds. -/
def is_numeric (s : String) : Bool :=
  if s = "" then false else (pyFloatOfString s).isSome

/-- `_is_boolean` (observation.py lines 99–105) on a CSV cell:
case-insensitive `"true"`/`"false"`. -/
def is_boolean (s : String) : Bool :=
  pyLower s == "true" || pyLower s == "false"

/-- `_convert_boolean` (observation.py lines 108–114) on a CSV cell. -/
def convert_boolean (s : String) : Bool :=
  pyLower s == "true"

/-- The unit/code/system triple added to a quantity (observation.py lines
136–144): the `UNITS` cell when truthy, else the dimensionless `"1"`. -/
def quantityUnitFields (units : Option String) : List (String × JVal) :=
  match units with
  | some u =>
    if u ≠ "" then
      [("unit", .str u), ("code", .str u), ("system", .str "http://unitsofmeasure.org")]
    else
      [("unit", .str "1"), ("code", .str "1"), ("system", .str "http://unitsofmeasure.org")]
  | none =>
    [("unit", .str "1"), ("code", .str "1"), ("system", .str "http://unitsofmeasure.org")]

/-- `_build_value_element` (observation.py lines 117–149): absent/empty
value gives no element, then boolean, then numeric, else string.  The
numeric branch is expressed as a match on the same `float` parse that
`_is_numeric` performs. -/
def build_value_element (src : Row) : Option (List (String × JVal)) :=
  let value := rowGet src "VALUE"
  let units := rowGet src "UNITS"
  match value with
  | none => none
  | some v =>
    if v = "" then none
    else if is_boolean v then some [("valueBoolean", .bool (convert_boolean v))]
    else
      match pyFloatOfString v with
      | some n => some [("valueQuantity", .obj (("value", JVal.num n) :: quantityUnitFields units))]
      | none => some [("valueString", .str v)]

/-- `_build_code` (observation.py lines 152–169): the nested `display` and
`text` carry the raw (possibly `None`) description. -/
def build_code (src : Row) : Option JVal :=
  let code := rowGet src "CODE"
  let description := rowGet src "DESCRIPTION"
  match code with
  | some c =>
    if c = "" then none
    else some (.obj
      [("coding", .arr [.obj
        [("system", .str "http://loinc.org"), ("code", .str c),
         ("display", optStr description)]]),
       ("text", optStr description)])
  | none => none

/-- `_generate_id` (observation.py lines 172–185). -/
def generate_id (src : Row) : Option String :=
  match rowGetT src "PATIENT", rowGetT src "DATE", rowGetT src "CODE" with
  | some patient, some date, some code =>
    some ("obs-" ++ patient ++ "-"
      ++ String.mk (date.data.filter (fun ch => ch ≠ ' ' ∧ ch ≠ ':' ∧ ch ≠ '-'))
      ++ "-" ++ code)
  | _, _, _ => none

/-- `filter_none_values` (observation.py lines 188–190 and patient.py lines
163–165, identical copies): drop top-level `None`, `[]` and `""` values. -/
def filter_none_values (d : List (String × JVal)) : List (String × JVal) :=
  d.filter (fun kv => kv.2 != JVal.null && kv.2 != JVal.arr [] && kv.2 != JVal.str "")

/-- `observation_transform` (observation.py lines 193–212). -/
def observation_transform (src : Row) : List (String × JVal) :=
  let result : List (String × JVal) :=
    [("resourceType", .str "Observation"),
     ("id", optStr (generate_id src)),
     ("status", .str "final"),
     ("code", (build_code src).getD .null),
     ("subject",
       match rowGetT src "PATIENT" with
       | some p => .obj (create_reference "Patient" p)
       | none => .null),
     ("encounter",
       match rowGetT src "ENCOUNTER" with
       | some e => .obj (create_reference "Encounter" e)
       | none => .null),
     ("effectiveDateTime", optStr (to_fhir_datetime (rowGet src "DATE"))),
     ("issued", optStr (to_fhir_datetime (rowGet src "DATE"))),
     ("category",
       match rowGetT src "TYPE" with
       | some t => .arr [forwardGet observation_category_mapping observation_category_default (some t)]
       | none => .null)]
  let result :=
    match build_value_element src with
    | some el => if el ≠ [] then pyDictUpdate result el else result
    | none => result
  filter_none_values result

/-- `map_observation` (observation.py lines 218–228). -/
def map_observation (syntheaObservation : Row) : List (String × JVal) :=
  observation_transform syntheaObservation

/-! ### `to_fhir/patient.py` -/

/-- `_build_name` (patient.py lines 21–39): only truthy components are
added; the name is kept only if anything beyond `use` was added. -/
def build_name (src : Row) : Option JVal :=
  let name : List (String × JVal) := [("use", .str "official")]
  let name := name ++
    (match rowGetT src "PREFIX" with
     | some p => [("prefix", JVal.arr [.str p])] | none => [])
  let name := name ++
    (match rowGetT src "FIRST" with
     | some f => [("given", JVal.arr [.str f])] | none => [])
  let name := name ++
    (match rowGetT src "LAST" with
     | some l => [("family", JVal.str l)] | none => [])
  let name := name ++
    (match rowGetT src "SUFFIX" with
     | some s => [("suffix", JVal.arr [.str s])] | none => [])
  if name.length > 1 then some (.obj name) else none

/-- `_build_maiden_name` (patient.py lines 42–49). -/
def build_maiden_name (src : Row) : Option JVal :=
  match rowGetT src "MAIDEN" with
  | some m => some (.obj [("use", .str "maiden"), ("family", .str m)])
  | none => none

/-- `float(s)` where failure raises `ValueError` to the caller. -/
def pyFloatStrict (s : String) : Except PyErr PyNum :=
  match pyFloatOfString s with
  | some n => .ok n
  | none => .error (.valueError "could not convert string to float")

/-- `_build_address` (patient.py lines 52–86).  `float(lat)`/`float(lon)`
on malformed coordinate cells raise `ValueError`, which escapes the
mapper. -/
def build_address (src : Row) : Except PyErr (Option JVal) := do
  let address : List (String × JVal) := [("use", .str "home")]
  let address := address ++
    (match rowGetT src "ADDRESS" with
     | some street => [("line", JVal.arr [.str street])] | none => [])
  let address := address ++
    (match rowGetT src "CITY" with | some c => [("city", JVal.str c)] | none => [])
  let address := address ++
    (match rowGetT src "STATE" with | some s => [("state", JVal.str s)] | none => [])
  let address := address ++
    (match rowGetT src "COUNTY" with | some c => [("district", JVal.str c)] | none => [])
  let address := address ++
    (match rowGetT src "ZIP" with | some z => [("postalCode", JVal.str z)] | none => [])
  let extensions ←
    (match rowGetT src "LAT", rowGetT src "LON" with
     | some lat, some lon => do
       let la ← pyFloatStrict lat
       let lo ← pyFloatStrict lon
       pure [JVal.obj
         [("url", .str "http://hl7.org/fhir/StructureDefinition/geolocation"),
          ("extension", .arr
            [.obj [("url", .str "latitude"), ("valueDecimal", .num la)],
             .obj [("url", .str "longitude"), ("valueDecimal", .num lo)]])]]
     | _, _ => pure ([] : List JVal))
  let address := address ++
    (if extensions ≠ [] then [("extension", JVal.arr extensions)] else [])
  pure (if address.length > 1 then some (.obj address) else none)

/-- `_build_identifiers` (patient.py lines 89–134). -/
def build_identifiers (src : Row) : List JVal :=
  (match rowGetT src "Id" with
   | some patientId =>
     [create_identifier "urn:oid:2.16.840.1.113883.19.5" patientId (some "official") (some "MR")]
   | none => []) ++
  (match rowGetT src "SSN" with
   | some ssn => [create_identifier "http://hl7.org/fhir/sid/us-ssn" ssn none (some "SS")]
   | none => []) ++
  (match rowGetT src "DRIVERS" with
   | some drivers => [create_identifier "urn:oid:2.16.840.1.113883.4.3.25" drivers none (some "DL")]
   | none => []) ++
  (match rowGetT src "PASSPORT" with
   | some passport => [create_identifier "http://hl7.org/fhir/sid/passport-USA" passport none (some "PPN")]
   | none => [])

/-- `_build_extensions` (patient.py lines 137–160): appends the race,
ethnicity and birthplace extensions in that order, skipping lexicon
misses. -/
def build_extensions (src : Row) : List JVal :=
  (match rowGetT src "RACE" with
   | some race =>
     let raceExt := forwardGet race_mapping .null (some (pyLower race))
     if pyTruthy raceExt then [raceExt] else []
   | none => []) ++
  (match rowGetT src "ETHNICITY" with
   | some ethnicity =>
     let ethnicityExt := forwardGet ethnicity_mapping .null (some (pyLower ethnicity))
     if pyTruthy ethnicityExt then [ethnicityExt] else []
   | none => []) ++
  (match rowGetT src "BIRTHPLACE" with
   | some birthplace =>
     [.obj [("url", .str "http://hl7.org/fhir/StructureDefinition/patient-birthPlace"),
            ("valueAddress", .obj [("text", .str birthplace)])]]
   | none => [])

/-- `patient_transform` (patient.py lines 168–183). -/
def patient_transform (src : Row) : Except PyErr (List (String × JVal)) := do
  let addr ← build_address src
  let result : List (String × JVal) :=
    [("resourceType", .str "Patient"),
     ("id", optStr (rowGet src "Id")),
     ("identifier", .arr (build_identifiers src)),
     ("name", .arr (((build_name src).toList ++ (build_maiden_name src).toList))),
     ("gender",
       match rowGetT src "GENDER" with
       | some g => .str (genderLexiconGet (some g))
       | none => .null),
     ("birthDate", optStr (to_fhir_date (rowGet src "BIRTHDATE"))),
     ("deceasedDateTime",
       match rowGetT src "DEATHDATE" with
       | some dd => optStr (to_fhir_datetime (some dd))
       | none => .null),
     ("address", .arr addr.toList),
     ("maritalStatus",
       match rowGetT src "MARITAL" with
       | some m => forwardGet marital_status_mapping .null (some m)
       | none => .null),
     ("extension", .arr (build_extensions src))]
  pure (filter_none_values result)

/-- `map_patient` (patient.py lines 193–203). -/
def map_patient (syntheaPatient : Row) : Except PyErr (List (String × JVal)) :=
  patient_transform syntheaPatient

/-! ### `to_synthea_csv/observation.py` -/

/-- The reverse modules' `filter_none_values` (to_synthea_csv/observation.py
lines 19–21 and patient.py lines 151–153): keep every column, replacing
`None` with the empty string. -/
def filter_none_values_reverse (d : List (String × JVal)) : List (String × JVal) :=
  d.map (fun kv => (kv.1, if kv.2 = JVal.null then JVal.str "" else kv.2))

/-- `fhir_observation_to_csv_transform` (to_synthea_csv/observation.py
lines 24–98).  The `observation_id` local on line 35 is assigned but never
used in the result, so it is not modelled.  Uncaught exceptions from the
value coercions propagate via `Except`. -/
def fhir_observation_to_csv_transform (fhirObservation : List (String × JVal)) :
    Except PyErr (List (String × JVal)) := do
  let date :=
    match parse_fhir_datetime (pyGet fhirObservation "effectiveDateTime") with
    | some d => if d ≠ "" then some d else none
    | none => none
  let date :=
    match date with
    | some d => some d
    | none => parse_fhir_datetime (pyGet fhirObservation "issued")
  let patientId ← extract_reference_id (pyGet fhirObservation "subject")
  let encounterId ← extract_reference_id (pyGet fhirObservation "encounter")
  let codeConcept := pyGet fhirObservation "code"
  let lcde ←
    (if pyTruthy codeConcept then do
      let loincCoding := extract_coding_by_system codeConcept "http://loinc.org"
      let lcde ←
        (if pyTruthy loincCoding then do
          let lc ← pyGetAttr loincCoding "code"
          let de ← pyGetAttr loincCoding "display"
          pure (lc, de)
        else pure (JVal.null, JVal.null))
      let de ← (if ¬pyTruthy lcde.2 then pyGetAttr codeConcept "text" else pure lcde.2)
      let lc := lcde.1
      if ¬pyTruthy lc ∨ ¬pyTruthy de then do
        let codingList ← pyGetAttrD codeConcept "coding" (.arr [])
        let listLen ← (if pyTruthy codingList then pyLen codingList else pure 0)
        if pyTruthy codingList ∧ listLen > 0 then do
          let firstCoding ← pyIndex0 codingList
          let lc2 ← (if ¬pyTruthy lc then pyGetAttr firstCoding "code" else pure lc)
          let de2 ← (if ¬pyTruthy de then pyGetAttr firstCoding "display" else pure de)
          pure (lc2, de2)
        else pure (lc, de)
      else pure (lc, de)
    else pure (JVal.null, JVal.null))
  let categories := pyGetD fhirObservation "category" (.arr [])
  let category ← extract_observation_category_from_codeable_concept categories
  let vu ← extract_value_and_unit fhirObservation
  let obsType := determine_observation_type fhirObservation
  let result : List (String × JVal) :=
    [("DATE", optStr date),
     ("PATIENT", patientId),
     ("ENCOUNTER", encounterId),
     ("CATEGORY", category),
     ("CODE", lcde.1),
     ("DESCRIPTION", lcde.2),
     ("VALUE", vu.1),
     ("UNITS", vu.2),
     ("TYPE", .str obsType)]
  pure (filter_none_values_reverse result)

/-- `map_fhir_observation_to_csv` (to_synthea_csv/observation.py lines
101–114): the resource-type guard raises `ValueError`; a truthy non-dict
input makes the guard's own `.get` raise `AttributeError` first. -/
def map_fhir_observation_to_csv (fhirObservation : JVal) :
    Except PyErr (List (String × JVal)) :=
  if ¬pyTruthy fhirObservation then
    .error (.valueError "Input must be a FHIR Observation resource")
  else
    match fhirObservation with
    | .obj fields =>
      if pyGet fields "resourceType" ≠ JVal.str "Observation" then
        .error (.valueError "Input must be a FHIR Observation resource")
      else fhir_observation_to_csv_transform fields
    | _ => .error (.attributeError "object has no attribute get")

/-! ### `to_synthea_csv/patient.py` -/

/-- The official/maiden scan of `_extract_name_components` (patient.py
lines 52–60): first truthy official name wins, last maiden name wins. -/
def nameScan : List JVal → JVal × JVal → JVal × JVal
  | [], acc => acc
  | name :: rest, (official, maiden) =>
    match name with
    | .obj n =>
      if pyGet n "use" == JVal.str "official" && !pyTruthy official then
        nameScan rest (.obj n, maiden)
      else if pyGet n "use" == JVal.str "maiden" then
        nameScan rest (official, .obj n)
      else nameScan rest (official, maiden)
    | _ => nameScan rest (official, maiden)

/-- The empty name-components dict (patient.py lines 36–43). -/
def emptyNameComponents : List (String × JVal) :=
  [("PREFIX", .null), ("FIRST", .null), ("MIDDLE", .null),
   ("LAST", .null), ("SUFFIX", .null), ("MAIDEN", .null)]

/-- `_extract_name_components` (to_synthea_csv/patient.py lines 26–93).
When no dict carries `use == "official"` the raw first list element is
used, whose `.get` raises `AttributeError` if it is not a dict. -/
def extract_name_components (names : JVal) : Except PyErr (List (String × JVal)) :=
  match names with
  | .arr xs =>
    if xs = [] then .ok emptyNameComponents
    else do
      let om := nameScan xs (.null, .null)
      let official := if ¬pyTruthy om.1 then xs.headD .null else om.1
      let comps ←
        (if pyTruthy official then do
          let prefixList ← pyGetAttr official "prefix"
          let pfx := if pyTruthy prefixList then safe_get_first prefixList else JVal.null
          let givenList ← pyGetAttr official "given"
          let fm :=
            (match givenList with
             | .arr gs =>
               if gs ≠ [] then
                 (gs.headD .null, if gs.length ≥ 2 then gs.getD 1 .null else JVal.null)
               else (JVal.null, JVal.null)
             | _ => (JVal.null, JVal.null))
          let lst ← pyGetAttr official "family"
          let suffixList ← pyGetAttr official "suffix"
          let sfx := if pyTruthy suffixList then safe_get_first suffixList else JVal.null
          pure (pfx, fm.1, fm.2, lst, sfx)
        else pure (JVal.null, JVal.null, JVal.null, JVal.null, JVal.null))
      let mdn ←
        (if pyTruthy om.2 then pyGetAttr om.2 "family" else pure JVal.null)
      .ok [("PREFIX", comps.1), ("FIRST", comps.2.1), ("MIDDLE", comps.2.2.1),
           ("LAST", comps.2.2.2.1), ("SUFFIX", comps.2.2.2.2), ("MAIDEN", mdn)]
  | _ => .ok emptyNameComponents

/-- The home-address scan of `_extract_address_components` (patient.py
lines 120–125): first dict with `use == "home"`. -/
def addressScan : List JVal → JVal
  | [] => .null
  | addr :: rest =>
    match addr with
    | .obj a => if pyGet a "use" == JVal.str "home" then .obj a else addressScan rest
    | _ => addressScan rest

/-- The empty address-components dict (patient.py lines 106–114). -/
def emptyAddressComponents : List (String × JVal) :=
  [("ADDRESS", .null), ("CITY", .null), ("STATE", .null), ("COUNTY", .null),
   ("ZIP", .null), ("LAT", .null), ("LON", .null)]

/-- `_extract_address_components` (to_synthea_csv/patient.py lines 96–148). -/
def extract_address_components (addresses : JVal) : Except PyErr (List (String × JVal)) :=
  match addresses with
  | .arr xs =>
    if xs = [] then .ok emptyAddressComponents
    else do
      let home := addressScan xs
      let home := if ¬pyTruthy home then xs.headD .null else home
      if ¬pyTruthy home then .ok emptyAddressComponents
      else do
        let lineList ← pyGetAttr home "line"
        let addrVal := if pyTruthy lineList then safe_get_first lineList else JVal.null
        let city ← pyGetAttr home "city"
        let state ← pyGetAttr home "state"
        let county ← pyGetAttr home "district"
        let zipCode ← pyGetAttr home "postalCode"
        let latlon ← extract_geolocation home
        .ok [("ADDRESS", addrVal), ("CITY", city), ("STATE", state),
             ("COUNTY", county), ("ZIP", zipCode), ("LAT", latlon.1), ("LON", latlon.2)]
  | _ => .ok emptyAddressComponents

/-- `fhir_patient_to_csv_transform` (to_synthea_csv/patient.py lines
156–227). -/
def fhir_patient_to_csv_transform (fhirPatient : List (String × JVal)) :
    Except PyErr (List (String × JVal)) := do
  let patientId := pyGet fhirPatient "id"
  let nameComponents ← extract_name_components (pyGetD fhirPatient "name" (.arr []))
  let identifiers := pyGetD fhirPatient "identifier" (.arr [])
  let ssn ← extract_identifier_by_type identifiers "SS"
  let drivers ← extract_identifier_by_type identifiers "DL"
  let passport ← extract_identifier_by_type identifiers "PPN"
  let gender ← genderReverseLexiconGet (pyGet fhirPatient "gender")
  let birthDate := parse_fhir_date (pyGet fhirPatient "birthDate")
  let deathDate := parse_fhir_datetime (pyGet fhirPatient "deceasedDateTime")
  let maritalStatus ← extract_marital_status_from_codeable_concept
    (pyGet fhirPatient "maritalStatus")
  let extensions := pyGetD fhirPatient "extension" (.arr [])
  let race ← extract_us_core_race extensions
  let ethnicity ← extract_us_core_ethnicity extensions
  let birthplace := extract_birthplace extensions
  let addressComponents ← extract_address_components
    (pyGetD fhirPatient "address" (.arr []))
  let result : List (String × JVal) :=
    [("Id", patientId),
     ("BIRTHDATE", optStr birthDate),
     ("DEATHDATE", optStr deathDate),
     ("SSN", ssn),
     ("DRIVERS", drivers),
     ("PASSPORT", passport),
     ("PREFIX", pyGet nameComponents "PREFIX"),
     ("FIRST", pyGet nameComponents "FIRST"),
     ("MIDDLE", pyGet nameComponents "MIDDLE"),
     ("LAST", pyGet nameComponents "LAST"),
     ("SUFFIX", pyGet nameComponents "SUFFIX"),
     ("MAIDEN", pyGet nameComponents "MAIDEN"),
     ("MARITAL", maritalStatus),
     ("RACE", race),
     ("ETHNICITY", ethnicity),
     ("GENDER", gender),
     ("BIRTHPLACE", birthplace),
     ("ADDRESS", pyGet addressComponents "ADDRESS"),
     ("CITY", pyGet addressComponents "CITY"),
     ("STATE", pyGet addressComponents "STATE"),
     ("COUNTY", pyGet addressComponents "COUNTY"),
     ("ZIP", pyGet addressComponents "ZIP"),
     ("LAT", pyGet addressComponents "LAT"),
     ("LON", pyGet addressComponents "LON")]
  pure (filter_none_values_reverse result)

/-- `map_fhir_patient_to_csv` (to_synthea_csv/patient.py lines 230–243). -/
def map_fhir_patient_to_csv (fhirPatient : JVal) :
    Except PyErr (List (String × JVal)) :=
  if ¬pyTruthy fhirPatient then
    .error (.valueError "Input must be a FHIR Patient resource")
  else
    match fhirPatient with
    | .obj fields =>
      if pyGet fields "resourceType" ≠ JVal.str "Patient" then
        .error (.valueError "Input must be a FHIR Patient resource")
      else fhir_patient_to_csv_transform fields
    | _ => .error (.attributeError "object has no attribute get")

/-! ## Theorems

Supporting lemmas first, then one theorem per claim (with witnesses and
counterexamples where required). -/

theorem dChar_isDig (n : Nat) : isDig (dChar n) = true := by
  have h : n % 10 < 10 := Nat.mod_lt _ (by omega)
  unfold dChar
  revert h
  generalize n % 10 = m
  revert m
  decide

theorem digVal_dChar (n : Nat) : digVal (dChar n) = n % 10 := by
  have h : n % 10 < 10 := Nat.mod_lt _ (by omega)
  unfold dChar
  revert h
  generalize n % 10 = m
  revert m
  decide

theorem dChar_ne {c : Char} (hc : isDig c = false) (n : Nat) : dChar n ≠ c := by
  intro h
  rw [← h] at hc
  rw [dChar_isDig] at hc
  cases hc

theorem pyWs_dChar (n : Nat) : pyWs (dChar n) = false := by
  have h : n % 10 < 10 := Nat.mod_lt _ (by omega)
  unfold dChar
  revert h
  generalize n % 10 = m
  revert m
  decide

theorem jval_beq_true {a b : JVal} (h : a = b) : (a == b) = true := by
  subst h; exact beq_self_eq_true a

theorem jstr_beq_false {s t : String} (h : s ≠ t) : (JVal.str s == JVal.str t) = false := by
  apply beq_eq_false_iff_ne.mpr
  intro hh
  exact h (by injection hh)

/-! ### C5 — `create_reference` on blank ids -/

/-- C5 counterexample: the claim says a blank (whitespace-only) id makes
the reference builder return absent/None; `create_reference` instead
returns a real reference object `{"reference": "Patient/ "}`. -/
theorem C5_counterexample :
    create_reference "Patient" " " = [("reference", JVal.str "Patient/ ")] ∧
    create_reference "Patient" "" = [("reference", JVal.str "Patient/")] := by
  constructor <;> rfl

/-- C5 (amended): `create_reference` never checks its id — for every
resource type and every id, including empty and blank ones, it returns
`{"reference": f"{resourceType}/{id}"}`; it never returns absent.  Callers
guard falsy ids before calling it, but whitespace-only ids pass those
guards. -/
theorem C5_create_reference_total (resourceType resourceId : String) :
    create_reference resourceType resourceId
      = [("reference", JVal.str (resourceType ++ "/" ++ resourceId))] := rfl

/-! ### C7 — extension isolation -/

/-- C7: on the extension list built by appending extension `A` and then
extension `B` (distinct URLs), `extract_extension_by_url` retrieves `A`
and `B` independently by URL, and returns absent for any third URL. -/
theorem C7_extension_isolation (a b : List (String × JVal)) (uA uB uC : String)
    (ha : pyGet a "url" = .str uA) (hb : pyGet b "url" = .str uB)
    (hab : uA ≠ uB) (hca : uC ≠ uA) (hcb : uC ≠ uB) :
    extract_extension_by_url (.arr [.obj a, .obj b]) uA = .obj a ∧
    extract_extension_by_url (.arr [.obj a, .obj b]) uB = .obj b ∧
    extract_extension_by_url (.arr [.obj a, .obj b]) uC = .null := by
  refine ⟨?_, ?_, ?_⟩ <;>
    simp [extract_extension_by_url, List.find?, ha, hb, jval_beq_true,
      jstr_beq_false hab, jstr_beq_false (Ne.symm hab),
      jstr_beq_false (Ne.symm hca), jstr_beq_false (Ne.symm hcb)]

/-- C7 witness at concrete extensions. -/
theorem C7_witness :
    extract_extension_by_url
        (.arr [.obj [("url", .str "urn:a"), ("valueString", .str "1")],
               .obj [("url", .str "urn:b"), ("valueString", .str "2")]]) "urn:a"
      = .obj [("url", .str "urn:a"), ("valueString", .str "1")] ∧
    extract_extension_by_url
        (.arr [.obj [("url", .str "urn:a"), ("valueString", .str "1")],
               .obj [("url", .str "urn:b"), ("valueString", .str "2")]]) "urn:b"
      = .obj [("url", .str "urn:b"), ("valueString", .str "2")] ∧
    extract_extension_by_url
        (.arr [.obj [("url", .str "urn:a"), ("valueString", .str "1")],
               .obj [("url", .str "urn:b"), ("valueString", .str "2")]]) "urn:c"
      = .null :=
  C7_extension_isolation
    [("url", .str "urn:a"), ("valueString", .str "1")]
    [("url", .str "urn:b"), ("valueString", .str "2")]
    "urn:a" "urn:b" "urn:c" rfl rfl (by decide) (by decide) (by decide)

/-! ### C6 — reference round-trip -/

theorem splitChar_ne_nil (sep : Char) (cs : List Char) : splitChar sep cs ≠ [] := by
  induction cs with
  | nil => simp [splitChar]
  | cons c rest ih =>
    simp only [splitChar]
    split
    · simp
    · cases h : splitChar sep rest with
      | nil => exact absurd h ih
      | cons hd tl => simp

theorem splitChar_no_sep (sep : Char) (cs : List Char) (h : sep ∉ cs) :
    splitChar sep cs = [cs] := by
  induction cs with
  | nil => rfl
  | cons c rest ih =>
    have hc : ¬c = sep := by
      intro hh
      exact h (hh ▸ List.mem_cons_self c rest)
    simp only [splitChar, if_neg hc]
    rw [ih (fun hm => h (List.mem_cons_of_mem c hm))]

theorem splitChar_two_le (sep : Char) (cs : List Char) (h : sep ∈ cs) :
    2 ≤ (splitChar sep cs).length := by
  induction cs with
  | nil => cases h
  | cons c rest ih =>
    simp only [splitChar]
    by_cases hc : c = sep
    · rw [if_pos hc]
      cases hh : splitChar sep rest with
      | nil => exact absurd hh (splitChar_ne_nil sep rest)
      | cons a t => simp
    · rw [if_neg hc]
      have hmem : sep ∈ rest := by
        cases h with
        | head => exact absurd rfl hc
        | tail _ hm => exact hm
      have h2 := ih hmem
      cases hh : splitChar sep rest with
      | nil => exact absurd hh (splitChar_ne_nil sep rest)
      | cons a t =>
        rw [hh] at h2
        simpa using h2

theorem getLastD_irrel {α : Type} (t : List α) (ht : t ≠ []) (d1 d2 : α) :
    t.getLastD d1 = t.getLastD d2 := by
  cases t with
  | nil => exact absurd rfl ht
  | cons a l => rw [List.getLastD_cons, List.getLastD_cons]

theorem splitChar_append_last (sep : Char) (pre cs : List Char) (h : sep ∉ cs) :
    (splitChar sep (pre ++ sep :: cs)).getLastD [] = cs := by
  induction pre with
  | nil =>
    simp only [List.nil_append, splitChar, if_pos rfl]
    rw [splitChar_no_sep sep cs h]
    rfl
  | cons c pre ih =>
    simp only [List.cons_append, splitChar]
    by_cases hc : c = sep
    · rw [if_pos hc, List.getLastD_cons]
      rw [getLastD_irrel _ (splitChar_ne_nil _ _) [] []] at ih
      exact ih
    · rw [if_neg hc]
      cases hh : splitChar sep (pre ++ sep :: cs) with
      | nil => exact absurd hh (splitChar_ne_nil _ _)
      | cons a t =>
        have h2 : 2 ≤ (splitChar sep (pre ++ sep :: cs)).length :=
          splitChar_two_le _ _ (by simp)
        rw [hh] at h2
        have ht : t ≠ [] := by
          intro hht
          rw [hht] at h2
          simp at h2
        rw [hh, List.getLastD_cons] at ih
        rw [List.getLastD_cons]
        rw [getLastD_irrel t ht (c :: a) a]
        exact ih

theorem tails_any_singleton (c : Char) (cs : List Char) (h : c ∈ cs) :
    List.any cs.tails (fun t => [c].isPrefixOf t) = true := by
  induction cs with
  | nil => cases h
  | cons x rest ih =>
    rw [List.tails_cons, List.any_cons]
    by_cases hx : c = x
    · subst hx
      simp [List.isPrefixOf]
    · have : c ∈ rest := by
        cases h with
        | head => exact absurd rfl hx
        | tail _ hm => exact hm
      rw [ih this]
      simp

/-- C6 counterexample: for the non-empty id `"a/b"` the round-trip returns
only the segment after the last slash, `"b"`, not the id itself. -/
theorem C6_counterexample :
    extract_reference_id (.obj (create_reference "Patient" "a/b")) = .ok (.str "b") ∧
    "b" ≠ "a/b" := by
  constructor
  · rfl
  · decide

theorem extract_reference_id_str (s : String) (hne : s ≠ "")
    (hany : (s.data.tails.any fun t => List.isPrefixOf ['/'] t) = true) :
    extract_reference_id (.obj [("reference", .str s)]) = .ok (.str (lastSplitSeg '/' s)) := by
  simp [extract_reference_id, pyTruthy, pyGet, jLookup, List.lookup, pyInOp, hne, hany,
    Bind.bind, Except.bind]


/-- C6 (amended): for every non-empty id containing no `/`, parsing the
reference built from `("Patient", id)` returns exactly `id`.  (Ids with a
slash — impossible for FHIR ids but allowed for arbitrary strings — are
truncated to their last segment, as the counterexample shows.) -/
theorem C6_reference_round_trip (id : String) (h1 : id ≠ "") (h2 : '/' ∉ id.data) :
    extract_reference_id (.obj (create_reference "Patient" id)) = .ok (.str id) := by
  have hdata : ("Patient" ++ "/" ++ id).data
      = 'P' :: 'a' :: 't' :: 'i' :: 'e' :: 'n' :: 't' :: '/' :: id.data := rfl
  have hne : ("Patient" ++ "/" ++ id) ≠ "" := by
    intro hh
    have h3 : ("Patient" ++ "/" ++ id).data = [] := by rw [hh]
    rw [hdata] at h3
    exact List.noConfusion h3
  have hmem : '/' ∈ ("Patient" ++ "/" ++ id).data := by
    rw [hdata]
    simp
  have hlast : lastSplitSeg '/' ("Patient" ++ "/" ++ id) = id := by
    unfold lastSplitSeg
    have hdata2 : ("Patient" ++ "/" ++ id).data = "Patient".data ++ '/' :: id.data := rfl
    rw [hdata2, splitChar_append_last '/' _ _ h2]
  have hmain := extract_reference_id_str ("Patient" ++ "/" ++ id) hne
    (tails_any_singleton '/' _ hmem)
  rw [hlast] at hmain
  exact hmain

/-- C6 witness at the concrete id `"p1"`. -/
theorem C6_witness :
    extract_reference_id (.obj (create_reference "Patient" "p1")) = .ok (.str "p1") :=
  C6_reference_round_trip "p1" (by decide) (by decide)

/-! ### C2 — forward value encoding classification -/

/-- C2: classification of `_build_value_element` on every row: absent or
empty `VALUE` produces no element; boolean literals produce
`valueBoolean`; parseable numbers produce a `valueQuantity` with
unit/code from `UNITS` when present and `"1"` otherwise; anything else
produces `valueString`. -/
theorem C2_value_classification (src : Row) :
    ((rowGet src "VALUE" = none ∨ rowGet src "VALUE" = some "") →
      build_value_element src = none)
    ∧ (∀ v, rowGet src "VALUE" = some v → is_boolean v = true →
      build_value_element src = some [("valueBoolean", .bool (convert_boolean v))])
    ∧ (∀ v n u, rowGet src "VALUE" = some v → is_boolean v = false →
      pyFloatOfString v = some n → rowGet src "UNITS" = some u → u ≠ "" →
      build_value_element src = some [("valueQuantity", .obj
        [("value", .num n), ("unit", .str u), ("code", .str u),
         ("system", .str "http://unitsofmeasure.org")])])
    ∧ (∀ v n, rowGet src "VALUE" = some v → is_boolean v = false →
      pyFloatOfString v = some n →
      (rowGet src "UNITS" = none ∨ rowGet src "UNITS" = some "") →
      build_value_element src = some [("valueQuantity", .obj
        [("value", .num n), ("unit", .str "1"), ("code", .str "1"),
         ("system", .str "http://unitsofmeasure.org")])])
    ∧ (∀ v, rowGet src "VALUE" = some v → v ≠ "" → is_boolean v = false →
      pyFloatOfString v = none →
      build_value_element src = some [("valueString", .str v)]) := by
  refine ⟨?_, ?_, ?_, ?_, ?_⟩
  · rintro (h | h) <;> simp [build_value_element, h]
  · intro v hv hb
    have hvne : v ≠ "" := by
      intro hh
      subst hh
      simp [is_boolean, pyLower] at hb
    simp [build_value_element, hv, hvne, hb]
  · intro v n u hv hb hn hu hune
    have hvne : v ≠ "" := by
      intro hh
      subst hh
      simp [pyFloatOfString, stripWs, parseSign] at hn
    simp [build_value_element, hv, hvne, hb, hn, hu, quantityUnitFields, hune]
  · intro v n hv hb hn hu
    have hvne : v ≠ "" := by
      intro hh
      subst hh
      simp [pyFloatOfString, stripWs, parseSign] at hn
    rcases hu with h | h <;>
      simp [build_value_element, hv, hvne, hb, hn, quantityUnitFields, h]
  · intro v hv hvne hb hn
    simp [build_value_element, hv, hvne, hb, hn]

/-- C2 witness: a decimal value with units, exercising the quantity
branch. -/
theorem C2_witness :
    build_value_element [("VALUE", "7.5"), ("UNITS", "kg")]
      = some [("valueQuantity", .obj
        [("value", .num ⟨75, 1⟩), ("unit", .str "kg"), ("code", .str "kg"),
         ("system", .str "http://unitsofmeasure.org")])] :=
  (C2_value_classification [("VALUE", "7.5"), ("UNITS", "kg")]).2.2.1
    "7.5" ⟨75, 1⟩ "kg" rfl (by decide) (by decide) rfl (by decide)

/-! ### C10 — boolean check precedes numeric check -/

/-- C10: in `_build_value_element` the boolean test runs before the
numeric test, so any row whose `VALUE` lowercases to `"true"`/`"false"`
yields `valueBoolean` regardless of `UNITS`, and the produced element
carries neither `valueQuantity` nor `valueString`. -/
theorem C10_boolean_before_numeric (src : Row) (v : String)
    (hv : rowGet src "VALUE" = some v)
    (hb : pyLower v = "true" ∨ pyLower v = "false") :
    build_value_element src = some [("valueBoolean", .bool (pyLower v == "true"))]
    ∧ (∀ el, build_value_element src = some el →
        jLookup el "valueQuantity" = none ∧ jLookup el "valueString" = none) := by
  have hbool : is_boolean v = true := by
    rcases hb with h | h <;> simp [is_boolean, h]
  have hvne : v ≠ "" := by
    intro hh
    subst hh
    rcases hb with h | h <;> simp [pyLower] at h
  have hmain : build_value_element src
      = some [("valueBoolean", .bool (convert_boolean v))] := by
    simp [build_value_element, hv, hvne, hbool]
  refine ⟨hmain, ?_⟩
  intro el hel
  rw [hmain] at hel
  cases hel
  constructor <;> rfl

/-- C10 witness: `VALUE = "FALSE"` with numeric-looking units still gives
`valueBoolean false`. -/
theorem C10_witness :
    build_value_element [("VALUE", "FALSE"), ("UNITS", "cm")]
      = some [("valueBoolean", .bool false)] :=
  (C10_boolean_before_numeric [("VALUE", "FALSE"), ("UNITS", "cm")] "FALSE" rfl
    (Or.inr (by decide))).1

/-! ### C1 — value codec round-trip -/

/-- C1: decoding the encoding through the observation value codec, on the
spec's four representative inputs.  The encoded element is fed to
`extract_value_and_unit` and `determine_observation_type` as the
observation's value element; normalization only strips a redundant
trailing `.0` (here: `"175"` comes back as `"175"`, not `"175.0"`). -/
theorem C1_value_codec_round_trip :
    (build_value_element [("VALUE", "175"), ("UNITS", "cm")]).map
        (fun el => (extract_value_and_unit el, determine_observation_type el))
      = some (.ok (.str "175", .str "cm"), "numeric")
    ∧ (build_value_element [("VALUE", "175.5"), ("UNITS", "cm")]).map
        (fun el => (extract_value_and_unit el, determine_observation_type el))
      = some (.ok (.str "175.5", .str "cm"), "numeric")
    ∧ (build_value_element [("VALUE", "true")]).map
        (fun el => (extract_value_and_unit el, determine_observation_type el))
      = some (.ok (.str "true", .null), "text")
    ∧ (build_value_element [("VALUE", "Former smoker")]).map
        (fun el => (extract_value_and_unit el, determine_observation_type el))
      = some (.ok (.str "Former smoker", .null), "text") := by
  refine ⟨?_, ?_, ?_, ?_⟩ <;> rfl

/-! ### C3 — reverse value decoding rendering rule -/

theorem natDigitsAux_isDig (fuel n : Nat) :
    ∀ c ∈ natDigitsAux fuel n, isDig c = true := by
  induction fuel generalizing n with
  | zero => intro c hc; cases hc
  | succ fuel ih =>
    intro c hc
    simp only [natDigitsAux] at hc
    split at hc
    · simp at hc
      subst hc
      exact dChar_isDig n
    · rw [List.mem_append] at hc
      cases hc with
      | inl h => exact ih (n / 10) c h
      | inr h =>
        simp at h
        subst h
        exact dChar_isDig (n % 10)

theorem intStr_no_dot (i : Int) : '.' ∉ (intStr i).data := by
  intro hmem
  unfold intStr at hmem
  split at hmem
  · have hd : (String.mk ('-' :: natDigits i.natAbs)).data
        = '-' :: natDigits i.natAbs := rfl
    rw [hd] at hmem
    rcases List.mem_cons.mp hmem with h | h
    · cases h
    · have := natDigitsAux_isDig _ _ '.' h
      simp [isDig] at this
  · have hd : (String.mk (natDigits i.natAbs)).data = natDigits i.natAbs := rfl
    rw [hd] at hmem
    have := natDigitsAux_isDig _ _ '.' hmem
    simp [isDig] at this

theorem pyEqInt_of_whole (n : PyNum) (h : n.isWhole = true) :
    pyEqInt (.num n) n.trunc = true := by
  simp only [PyNum.isWhole, beq_iff_eq] at h
  have hdvd : ((10 : Int) ^ n.scale) ∣ n.mant := Int.dvd_of_emod_eq_zero h
  simp only [pyEqInt, PyNum.trunc, beq_iff_eq]
  exact (Int.tdiv_mul_cancel hdvd).symm

/-- C3: (a) an observation whose `valueQuantity.value` is a whole-number
float decodes to the integer rendering (no decimal point) with units taken
from `.unit` or `.code` and type tag `"numeric"`; (b) an observation whose
value element is `valueBoolean` decodes to the literal `"true"`/`"false"`
with type tag `"text"`.  (In (b) the earlier `value[x]` keys are required
absent, as FHIR's value choice type guarantees — the source checks them in
that order.) -/
theorem C3_reverse_value_decoding (obs q : List (String × JVal)) (n : PyNum) (b : Bool) :
    (jLookup obs "valueQuantity" = some (.obj q) →
     jLookup q "value" = some (.num n) → n.isWhole = true →
      extract_value_and_unit obs
          = .ok (.str (intStr n.trunc), pyOr (pyGet q "unit") (pyGet q "code"))
        ∧ '.' ∉ (intStr n.trunc).data
        ∧ determine_observation_type obs = "numeric")
    ∧ (jLookup obs "valueQuantity" = none → jLookup obs "valueInteger" = none →
       jLookup obs "valueDecimal" = none → jLookup obs "valueString" = none →
       jLookup obs "valueBoolean" = some (.bool b) →
      extract_value_and_unit obs = .ok (.str (if b then "true" else "false"), .null)
        ∧ determine_observation_type obs = "text") := by
  constructor
  · intro hq hv hw
    refine ⟨?_, intStr_no_dot n.trunc, ?_⟩
    · simp [extract_value_and_unit, pyHasKey, pyGet, hq, hv, pyInt,
        Bind.bind, Except.bind, pyEqInt_of_whole n hw]
    · simp [determine_observation_type, pyHasKey, hq]
  · intro h1 h2 h3 h4 hb
    constructor
    · simp [extract_value_and_unit, pyHasKey, pyGet, h1, h2, h3, h4, hb, pyTruthy]
    · simp [determine_observation_type, pyHasKey, h1, h2, h3, h4, hb]

/-- C3 witness: a whole-valued quantity (`175.0`, stored non-normalized as
`1750/10`) rendering as `"175"` with unit `"cm"`, and a boolean value
rendering as `"true"`. -/
theorem C3_witness :
    (extract_value_and_unit [("valueQuantity", .obj
        [("value", .num ⟨1750, 1⟩), ("unit", .str "cm")])]
      = .ok (.str "175", .str "cm")
     ∧ '.' ∉ (intStr (PyNum.trunc ⟨1750, 1⟩)).data
     ∧ determine_observation_type [("valueQuantity", .obj
        [("value", .num ⟨1750, 1⟩), ("unit", .str "cm")])] = "numeric")
    ∧ (extract_value_and_unit [("valueBoolean", .bool true)]
        = .ok (.str "true", .null)
       ∧ determine_observation_type [("valueBoolean", .bool true)] = "text") := by
  constructor
  · have h := (C3_reverse_value_decoding
      [("valueQuantity", .obj [("value", .num ⟨1750, 1⟩), ("unit", .str "cm")])]
      [("value", .num ⟨1750, 1⟩), ("unit", .str "cm")] ⟨1750, 1⟩ true).1
      rfl rfl (by decide)
    exact h
  · exact (C3_reverse_value_decoding [("valueBoolean", .bool true)]
      [] ⟨0, 0⟩ true).2 rfl rfl rfl rfl rfl

/-! ### C8 — reverse-mapper type guard -/

/-- C8 counterexample: an input dict that passes the resource-type guard
(non-empty, `resourceType = "Observation"`) still makes
`map_fhir_observation_to_csv` raise a `ValueError` — `int("abc")` inside
`extract_value_and_unit` — so "raises a ValueError iff the input is
empty/absent or has the wrong resourceType" is false. -/
theorem C8_counterexample :
    map_fhir_observation_to_csv (.obj
        [("resourceType", .str "Observation"),
         ("valueQuantity", .obj [("value", .str "abc")])])
      = .error (.valueError "invalid literal for int() with base 10")
    ∧ pyTruthy (.obj
        [("resourceType", .str "Observation"),
         ("valueQuantity", .obj [("value", .str "abc")])]) = true
    ∧ pyGet [("resourceType", .str "Observation"),
             ("valueQuantity", .obj [("value", .str "abc")])] "resourceType"
        = .str "Observation"
    ∧ (PyErr.valueError "invalid literal for int() with base 10"
        ≠ .valueError "Input must be a FHIR Observation resource") := by
  refine ⟨rfl, rfl, rfl, by decide⟩

/-- C8 (amended): the resource-type guard of each reverse mapper raises
its `ValueError` exactly when the input dict is empty or its
`resourceType` is not the expected one; on inputs passing the guard the
mapper is exactly the underlying transform — the guard itself raises
nothing, though the transform may still raise on malformed value contents
(see the counterexample). -/
theorem C8_reverse_mapper_guard (fields : List (String × JVal)) :
    ((pyTruthy (.obj fields) = false ∨ pyGet fields "resourceType" ≠ .str "Observation") →
      map_fhir_observation_to_csv (.obj fields)
        = .error (.valueError "Input must be a FHIR Observation resource"))
    ∧ (pyTruthy (.obj fields) = true → pyGet fields "resourceType" = .str "Observation" →
      map_fhir_observation_to_csv (.obj fields) = fhir_observation_to_csv_transform fields)
    ∧ ((pyTruthy (.obj fields) = false ∨ pyGet fields "resourceType" ≠ .str "Patient") →
      map_fhir_patient_to_csv (.obj fields)
        = .error (.valueError "Input must be a FHIR Patient resource"))
    ∧ (pyTruthy (.obj fields) = true → pyGet fields "resourceType" = .str "Patient" →
      map_fhir_patient_to_csv (.obj fields) = fhir_patient_to_csv_transform fields) := by
  refine ⟨?_, ?_, ?_, ?_⟩
  · rintro (h | h) <;> simp [map_fhir_observation_to_csv, h]
  · intro h1 h2
    simp [map_fhir_observation_to_csv, h1, h2]
  · rintro (h | h) <;> simp [map_fhir_patient_to_csv, h]
  · intro h1 h2
    simp [map_fhir_patient_to_csv, h1, h2]

/-- C8 witness: a minimal well-typed Observation passes the guard and is
handed to the transform unchanged; an Observation fed to the Patient
mapper trips the guard. -/
theorem C8_witness :
    map_fhir_observation_to_csv (.obj [("resourceType", .str "Observation")])
      = fhir_observation_to_csv_transform [("resourceType", .str "Observation")]
    ∧ map_fhir_patient_to_csv (.obj [("resourceType", .str "Observation")])
      = .error (.valueError "Input must be a FHIR Patient resource") :=
  ⟨(C8_reverse_mapper_guard [("resourceType", .str "Observation")]).2.1
      (by decide) rfl,
   (C8_reverse_mapper_guard [("resourceType", .str "Observation")]).2.2.1
      (Or.inr (by decide))⟩

/-! ### C9 — forward-direction omission invariant -/

mutual

/-- Whether a value's tree contains no dict binding to `None` at any
depth. -/
def noNullBindings : JVal → Bool
  | .obj fs => noNullBindingsF fs
  | .arr xs => noNullBindingsL xs
  | _ => true

def noNullBindingsL : List JVal → Bool
  | [] => true
  | x :: rest => noNullBindings x && noNullBindingsL rest

def noNullBindingsF : List (String × JVal) → Bool
  | [] => true
  | (_, v) :: rest => v != JVal.null && noNullBindings v && noNullBindingsF rest

end

/-- C9 counterexample: a row with a `CODE` but no `DESCRIPTION` produces a
resource whose nested `code.coding[0].display` and `code.text` are bound
to `None` — the "no key bound to null" claim fails below the top level
(only top-level `None`s are filtered). -/
theorem C9_counterexample :
    noNullBindingsF (map_observation [("CODE", "1234-5")]) = false
    ∧ map_observation [("CODE", "1234-5")]
      = [("resourceType", .str "Observation"),
         ("status", .str "final"),
         ("code", .obj
           [("coding", .arr [.obj
             [("system", .str "http://loinc.org"), ("code", .str "1234-5"),
              ("display", .null)]]),
            ("text", .null)])] :=
  ⟨rfl, rfl⟩

theorem filter_none_values_no_null (d : List (String × JVal)) :
    ∀ kv ∈ filter_none_values d, kv.2 ≠ JVal.null := by
  intro kv hkv
  rw [filter_none_values, List.mem_filter] at hkv
  have h := hkv.2
  simp only [Bool.and_eq_true, bne_iff_ne, ne_eq] at h
  exact h.1.1

/-- C9 (amended): for every CSV row, the *top level* of a forward mapper's
output contains no key bound to `None` (`filter_none_values` runs last);
nested structures can still carry `None` sub-fields, as the counterexample
shows. -/
theorem C9_top_level_no_null (src : Row) :
    (∀ kv ∈ map_observation src, kv.2 ≠ JVal.null)
    ∧ (∀ res, map_patient src = .ok res → ∀ kv ∈ res, kv.2 ≠ JVal.null) := by
  constructor
  · intro kv hkv
    exact filter_none_values_no_null _ kv hkv
  · intro res hres kv hkv
    cases hb : build_address src with
    | error e =>
      rw [map_patient, patient_transform] at hres
      rw [hb] at hres
      simp [Bind.bind, Except.bind] at hres
    | ok addr =>
      rw [map_patient, patient_transform] at hres
      rw [hb] at hres
      simp only [Bind.bind, Except.bind, pure, Except.pure, Except.ok.injEq] at hres
      subst hres
      exact filter_none_values_no_null _ kv hkv

/-- C9 witness: both halves applied at concrete rows and concrete output
entries. -/
theorem C9_witness :
    ("resourceType", JVal.str "Observation").2 ≠ JVal.null
    ∧ ("resourceType", JVal.str "Patient").2 ≠ JVal.null :=
  ⟨(C9_top_level_no_null [("CODE", "1234-5")]).1
      ("resourceType", JVal.str "Observation") (by decide),
   (C9_top_level_no_null []).2 [("resourceType", JVal.str "Patient")] rfl
      ("resourceType", JVal.str "Patient") (by decide)⟩

/-! ### C4 — `to_fhir_datetime` postcondition -/

/-- The character list of the canonical Synthea datetime rendering
`"YYYY-MM-DD HH:MM:SS"` (the input form the claim quantifies over). -/
def dtChars (y mo d h mi s : Nat) : List Char :=
  pad4 y ++ ('-' :: (pad2 mo ++ ('-' :: (pad2 d
    ++ (' ' :: (pad2 h ++ (':' :: (pad2 mi ++ (':' :: pad2 s)))))))))

/-- The character list of the canonical bare-date rendering `"YYYY-MM-DD"`. -/
def dateChars (y mo d : Nat) : List Char :=
  pad4 y ++ ('-' :: (pad2 mo ++ ('-' :: pad2 d)))

/-- The canonical Synthea datetime rendering `"YYYY-MM-DD HH:MM:SS"`. -/
def syntheaDatetimeStr (y mo d h mi s : Nat) : String :=
  String.mk (dtChars y mo d h mi s)

/-- The canonical bare-date rendering `"YYYY-MM-DD"`. -/
def syntheaDateStr (y mo d : Nat) : String :=
  String.mk (dateChars y mo d)

theorem parse4_pad4 (y : Nat) (hy : y ≤ 9999) (rest : List Char) :
    parse4 (pad4 y ++ rest) = some (y, rest) := by
  simp only [pad4, List.cons_append, List.nil_append, parse4, dChar_isDig,
    Bool.and_self, if_true, digVal_dChar, Option.some.injEq, Prod.mk.injEq,
    and_true]
  omega

theorem parse12_pad2 (n : Nat) (hn : n ≤ 99) (rest : List Char) :
    parse12 (pad2 n ++ rest) = some (n, rest) := by
  simp only [pad2, List.cons_append, List.nil_append, parse12, dChar_isDig,
    if_true, digVal_dChar, Option.some.injEq, Prod.mk.injEq, and_true]
  omega

theorem expectC_cons (c : Char) (rest : List Char) :
    expectC c (c :: rest) = some rest := by
  simp [expectC]

theorem expectWs_pad2 (n : Nat) (rest : List Char) :
    expectWs (' ' :: (pad2 n ++ rest)) = some (pad2 n ++ rest) := by
  simp only [expectWs, pad2, List.cons_append]
  rw [if_pos (by decide)]
  rw [List.dropWhile_cons_of_neg (by rw [pyWs_dChar]; simp)]

theorem daysInMonth_le (y mo : Nat) : daysInMonth y mo ≤ 31 := by
  simp only [daysInMonth]
  split_ifs <;> omega

theorem mkDatetime_valid (y mo d h mi s : Nat)
    (hy1 : 1 ≤ y) (hy2 : y ≤ 9999) (hmo1 : 1 ≤ mo) (hmo2 : mo ≤ 12)
    (hd1 : 1 ≤ d) (hd2 : d ≤ daysInMonth y mo) (hh : h ≤ 23) (hmi : mi ≤ 59)
    (hs : s ≤ 59) :
    mkDatetime y mo d h mi s = some ⟨y, mo, d, h, mi, s⟩ := by
  rw [mkDatetime, if_pos]
  exact ⟨hy1, hy2, hmo1, hmo2, hd1, hd2, hh, hmi, hs⟩

theorem strptimeDatetime_render (y mo d h mi s : Nat)
    (hy2 : y ≤ 9999) (hmo2 : mo ≤ 99) (hd2 : d ≤ 99) (hh : h ≤ 99)
    (hmi : mi ≤ 99) (hs : s ≤ 99) :
    strptimeDatetime (dtChars y mo d h mi s) = mkDatetime y mo d h mi s := by
  rw [strptimeDatetime, dtChars]
  rw [parse4_pad4 y hy2]
  simp only [Option.bind_eq_bind, Option.some_bind, Bind.bind]
  rw [expectC_cons]
  simp only [Option.some_bind]
  rw [parse12_pad2 mo hmo2]
  simp only [Option.some_bind]
  rw [expectC_cons]
  simp only [Option.some_bind]
  rw [parse12_pad2 d hd2]
  simp only [Option.some_bind]
  rw [expectWs_pad2]
  simp only [Option.some_bind]
  rw [parse12_pad2 h hh]
  simp only [Option.some_bind]
  rw [expectC_cons]
  simp only [Option.some_bind]
  rw [parse12_pad2 mi hmi]
  simp only [Option.some_bind]
  rw [expectC_cons]
  simp only [Option.some_bind]
  have hlast : pad2 s ++ ([] : List Char) = pad2 s := List.append_nil _
  rw [← hlast, parse12_pad2 s hs]
  simp

theorem strptimeDate_render (y mo d : Nat) (hy2 : y ≤ 9999) (hmo2 : mo ≤ 99)
    (hd2 : d ≤ 99) :
    strptimeDate (dateChars y mo d) = mkDatetime y mo d 0 0 0 := by
  rw [strptimeDate, dateChars]
  rw [parse4_pad4 y hy2]
  simp only [Option.bind_eq_bind, Option.some_bind, Bind.bind]
  rw [expectC_cons]
  simp only [Option.some_bind]
  rw [parse12_pad2 mo hmo2]
  simp only [Option.some_bind]
  rw [expectC_cons]
  simp only [Option.some_bind]
  have hlast : pad2 d ++ ([] : List Char) = pad2 d := List.append_nil _
  rw [← hlast, parse12_pad2 d hd2]
  simp

theorem mem_pad4_isDig {c : Char} {n : Nat} (h : c ∈ pad4 n) : isDig c = true := by
  simp only [pad4, List.mem_cons, List.not_mem_nil, or_false] at h
  rcases h with h | h | h | h <;> (subst h; exact dChar_isDig _)

theorem mem_pad2_isDig {c : Char} {n : Nat} (h : c ∈ pad2 n) : isDig c = true := by
  simp only [pad2, List.mem_cons, List.not_mem_nil, or_false] at h
  rcases h with h | h <;> (subst h; exact dChar_isDig _)

theorem dtChars_mem {c : Char} {y mo d h mi s : Nat}
    (hc : c ∈ dtChars y mo d h mi s) :
    isDig c = true ∨ c = '-' ∨ c = ' ' ∨ c = ':' := by
  simp only [dtChars, List.mem_append, List.mem_cons] at hc
  casesm* _ ∨ _
  all_goals try (exact Or.inl (mem_pad4_isDig (by assumption)))
  all_goals try (exact Or.inl (mem_pad2_isDig (by assumption)))
  all_goals simp_all

theorem dateChars_mem {c : Char} {y mo d : Nat} (hc : c ∈ dateChars y mo d) :
    isDig c = true ∨ c = '-' := by
  simp only [dateChars, List.mem_append, List.mem_cons] at hc
  casesm* _ ∨ _
  all_goals try (exact Or.inl (mem_pad4_isDig (by assumption)))
  all_goals try (exact Or.inl (mem_pad2_isDig (by assumption)))
  all_goals simp_all

theorem T_not_mem_dtChars (y mo d h mi s : Nat) : 'T' ∉ dtChars y mo d h mi s := by
  intro h
  rcases dtChars_mem h with h | h | h | h <;> exact absurd h (by decide)

theorem space_mem_dtChars (y mo d h mi s : Nat) : ' ' ∈ dtChars y mo d h mi s := by
  simp [dtChars]

theorem T_not_mem_dateChars (y mo d : Nat) : 'T' ∉ dateChars y mo d := by
  intro h
  rcases dateChars_mem h with h | h <;> exact absurd h (by decide)

theorem space_not_mem_dateChars (y mo d : Nat) : ' ' ∉ dateChars y mo d := by
  intro h
  rcases dateChars_mem h with h | h <;> exact absurd h (by decide)

theorem syntheaDatetimeStr_ne_empty (y mo d h mi s : Nat) :
    syntheaDatetimeStr y mo d h mi s ≠ "" := by
  intro hh
  have h3 : dtChars y mo d h mi s = [] := congrArg String.data hh
  simp [dtChars, pad4] at h3

theorem syntheaDateStr_ne_empty (y mo d : Nat) : syntheaDateStr y mo d ≠ "" := by
  intro hh
  have h3 : dateChars y mo d = [] := congrArg String.data hh
  simp [dateChars, pad4] at h3

theorem parse_synthea_datetime_dt (y mo d h mi s : Nat)
    (hy1 : 1 ≤ y) (hy2 : y ≤ 9999) (hmo1 : 1 ≤ mo) (hmo2 : mo ≤ 12)
    (hd1 : 1 ≤ d) (hd2 : d ≤ daysInMonth y mo) (hh : h ≤ 23) (hmi : mi ≤ 59)
    (hs : s ≤ 59) :
    parse_synthea_datetime (syntheaDatetimeStr y mo d h mi s)
      = some ⟨y, mo, d, h, mi, s⟩ := by
  simp only [parse_synthea_datetime]
  rw [if_neg (syntheaDatetimeStr_ne_empty y mo d h mi s)]
  rw [show (syntheaDatetimeStr y mo d h mi s).data = dtChars y mo d h mi s from rfl]
  rw [if_neg (T_not_mem_dtChars y mo d h mi s)]
  rw [if_pos (space_mem_dtChars y mo d h mi s)]
  rw [strptimeDatetime_render y mo d h mi s hy2 (by omega)
    (by have := daysInMonth_le y mo; omega) (by omega) (by omega) (by omega)]
  exact mkDatetime_valid y mo d h mi s hy1 hy2 hmo1 hmo2 hd1 hd2 hh hmi hs

theorem parse_synthea_datetime_date (y mo d : Nat)
    (hy1 : 1 ≤ y) (hy2 : y ≤ 9999) (hmo1 : 1 ≤ mo) (hmo2 : mo ≤ 12)
    (hd1 : 1 ≤ d) (hd2 : d ≤ daysInMonth y mo) :
    parse_synthea_datetime (syntheaDateStr y mo d) = some ⟨y, mo, d, 0, 0, 0⟩ := by
  simp only [parse_synthea_datetime]
  rw [if_neg (syntheaDateStr_ne_empty y mo d)]
  rw [show (syntheaDateStr y mo d).data = dateChars y mo d from rfl]
  rw [if_neg (T_not_mem_dateChars y mo d)]
  rw [if_neg (space_not_mem_dateChars y mo d)]
  rw [strptimeDate_render y mo d hy2 (by omega)
    (by have := daysInMonth_le y mo; omega)]
  exact mkDatetime_valid y mo d 0 0 0 hy1 hy2 hmo1 hmo2 hd1 hd2 (by omega)
    (by omega) (by omega)

/-- C4 counterexample: a bare-date input does **not** come back as a bare
date — `format_fhir_datetime` always renders a full timestamp, so
`"2020-01-05"` becomes `"2020-01-05T00:00:00+00:00"`. -/
theorem C4_counterexample :
    to_fhir_datetime (some "2020-01-05") = some "2020-01-05T00:00:00+00:00"
    ∧ "2020-01-05T00:00:00+00:00" ≠ "2020-01-05" := by
  exact ⟨rfl, by decide⟩

/-- C4 (amended): for every valid datetime in Synthea's
`"YYYY-MM-DD HH:MM:SS"` form the result is the ISO-8601 string
`"YYYY-MM-DDTHH:MM:SS+00:00"`; a bare date `"YYYY-MM-DD"` yields the
midnight timestamp `"YYYY-MM-DDT00:00:00+00:00"` (not a bare date — see
the counterexample); on any input the parser cannot handle the result is
absent (the embedding is total: every exception in the source is caught,
so nothing propagates to the caller). -/
theorem C4_to_fhir_datetime_postcondition (y mo d h mi s : Nat)
    (hy1 : 1000 ≤ y) (hy2 : y ≤ 9999) (hmo1 : 1 ≤ mo) (hmo2 : mo ≤ 12)
    (hd1 : 1 ≤ d) (hd2 : d ≤ daysInMonth y mo) (hh : h ≤ 23) (hmi : mi ≤ 59)
    (hs : s ≤ 59) :
    to_fhir_datetime (some (syntheaDatetimeStr y mo d h mi s))
      = some (strftimeFhirDatetime ⟨y, mo, d, h, mi, s⟩)
    ∧ to_fhir_datetime (some (syntheaDateStr y mo d))
      = some (strftimeFhirDatetime ⟨y, mo, d, 0, 0, 0⟩)
    ∧ (∀ v : Option String,
        (∀ str, v = some str → parse_synthea_datetime str = none) →
        to_fhir_datetime v = none) := by
  refine ⟨?_, ?_, ?_⟩
  · rw [to_fhir_datetime, if_neg (syntheaDatetimeStr_ne_empty y mo d h mi s)]
    rw [parse_synthea_datetime_dt y mo d h mi s (by omega) hy2 hmo1 hmo2 hd1 hd2
      hh hmi hs]
    rfl
  · rw [to_fhir_datetime, if_neg (syntheaDateStr_ne_empty y mo d)]
    rw [parse_synthea_datetime_date y mo d (by omega) hy2 hmo1 hmo2 hd1 hd2]
    rfl
  · intro v hv
    match v with
    | none => rfl
    | some str =>
      rw [to_fhir_datetime]
      by_cases hstr : str = ""
      · rw [if_pos hstr]
      · rw [if_neg hstr, hv str rfl]
        rfl

/-- C4 witness: the three branches at concrete inputs (the canonical
renderings reduce to the literal strings shown). -/
theorem C4_witness :
    to_fhir_datetime (some "2024-01-15 10:30:00") = some "2024-01-15T10:30:00+00:00"
    ∧ to_fhir_datetime (some "2024-01-15") = some "2024-01-15T00:00:00+00:00"
    ∧ to_fhir_datetime (some "nonsense") = none := by
  have h := C4_to_fhir_datetime_postcondition 2024 1 15 10 30 0 (by decide)
    (by decide) (by decide) (by decide) (by decide) (by decide) (by decide)
    (by decide) (by decide)
  exact ⟨h.1, h.2.1, h.2.2 (some "nonsense")
    (fun str hstr => by cases hstr; rfl)⟩
